import Mathlib

/-!
Shallow embedding of the `ZyanVector` container from `src/src/Vector.c`
(Zycore-C).  Elements are modelled at element granularity: the C code only
ever addresses the buffer at multiples of `element_size`, so one model slot
stands for one `element_size`-byte record.  Backing memory is modelled as a
total function `Nat -> A` (flat memory: addresses beyond `capacity` exist
but are outside the allocation), `memcpy`/`memmove` copy slot ranges, and
`ZyanUSize` arithmetic is `Nat` with an explicit `mod 2 ^ 64` at the
operations where the C code can wrap (`size += count`, `size -= count`).
The float fields `growth_factor` / `shrink_threshold` are modelled as
rationals; the C cast `(ZyanUSize)(float)` truncates toward zero, which for
the non-negative values arising here is `Rat.floor`.  Debug-only
`ZYAN_ASSERT` statements compile to nothing in release builds and are not
modelled.  The allocator is the external capability of the spec: a record
of success predicates; a failing call mutates nothing and its failure
status is propagated verbatim (modelled by the distinguished status
`AllocatorFailed`).
-/

/-- Status codes returned by the vector operations (Zycore `ZyanStatus`).
`AllocatorFailed` stands for any failure status propagated verbatim from
the external allocator. -/
inductive ZyanStatus : Type where
  | Success : ZyanStatus
  | InvalidArgument : ZyanStatus
  | OutOfRange : ZyanStatus
  | InsufficientBufferSize : ZyanStatus
  | AllocatorFailed : ZyanStatus
deriving DecidableEq, Repr

/-- External allocator capability (spec section 6): three operations, each
of which either succeeds or fails; the model records only success or
failure per requested capacity, since a failing allocator call leaves the
data block untouched and the container propagates the failure. -/
structure ZyanAllocator : Type where
  allocateOk : Nat → Bool
  reallocateOk : Nat → Bool
  deallocateOk : Nat → Bool

/-- Modulus of `ZyanUSize` arithmetic (64-bit unsigned). -/
def UMOD : Nat := 2 ^ 64

/-- Wrapping unsigned addition, as performed on `ZyanUSize` values. -/
def uadd (a b : Nat) : Nat := (a + b) % UMOD

/-- Wrapping unsigned subtraction, as performed on `ZyanUSize` values. -/
def usub (a b : Nat) : Nat := (a + (UMOD - b % UMOD)) % UMOD

/-- Model of `ZYAN_MEMCPY` at element granularity: copy `n` slots from the
source `src` (a function giving the j-th source element) into `data`
starting at slot `dest`. -/
def memcpy {A : Type} (data : Nat → A) (dest : Nat) (src : Nat → A) (n : Nat) :
    Nat → A :=
  fun a => if dest ≤ a ∧ a < dest + n then src (a - dest) else data a

/-- Model of `ZYAN_MEMMOVE` at element granularity: overlap-safe move of
`n` slots from slot `src` to slot `dest` (every destination slot receives
the value the source slot held before the move started). -/
def memmove {A : Type} (data : Nat → A) (dest src n : Nat) : Nat → A :=
  memcpy data dest (fun j => data (src + j)) n

/-- Internal constant `ZYAN_VECTOR_MIN_CAPACITY`. -/
def ZYAN_VECTOR_MIN_CAPACITY : Nat := 1

/-- Internal constant `ZYAN_VECTOR_GROWTH_FACTOR` (2.00f). -/
def ZYAN_VECTOR_GROWTH_FACTOR : ℚ := 2

/-- Internal constant `ZYAN_VECTOR_SHRINK_THRESHOLD` (0.25f). -/
def ZYAN_VECTOR_SHRINK_THRESHOLD : ℚ := 1 / 4

/-- The capacity target `ZYAN_MAX(1, (ZyanUSize)(desired * growth_factor))`
computed at every growth and shrink site of `Vector.c`; the C float-to-
unsigned cast truncates, i.e. takes the floor of the non-negative
product. -/
def zyanCapTarget (desired : Nat) (gf : ℚ) : Nat :=
  max 1 (((desired : ℚ) * gf).floor.toNat)

/-- The `ZyanVector` struct.  `data` is flat memory: the allocation is the
slots below `capacity`, but the model memory is total so that reads past
the allocation (which are possible in the C code) are observable as reads
of addresses `≥ capacity`. -/
structure ZyanVector (A : Type) : Type where
  allocator : Option ZyanAllocator
  growth_factor : ℚ
  shrink_threshold : ℚ
  size : Nat
  capacity : Nat
  element_size : Nat
  data : Nat → A

/-- `ZyanVectorReallocate` (Vector.c lines 92-127).  Without an allocator
(borrowing mode) any request beyond the fixed capacity fails with
`InsufficientBufferSize` and nothing changes.  With an allocator, a
request below the minimum capacity is clamped to the minimum (or the call
is a successful no-op when the capacity is already at the floor); the
`capacity` field is assigned *before* the allocator is invoked, so a
failing allocator call leaves the new capacity value behind. -/
def ZyanVectorReallocate {A : Type} (v : ZyanVector A) (capacity : Nat) :
    ZyanStatus × ZyanVector A :=
  match v.allocator with
  | none =>
      if v.capacity < capacity then (ZyanStatus.InsufficientBufferSize, v)
      else (ZyanStatus.Success, v)
  | some alloc =>
      if capacity < ZYAN_VECTOR_MIN_CAPACITY ∧
          ¬ ZYAN_VECTOR_MIN_CAPACITY < v.capacity then
        (ZyanStatus.Success, v)
      else
        let cap2 := if capacity < ZYAN_VECTOR_MIN_CAPACITY then
          ZYAN_VECTOR_MIN_CAPACITY else capacity
        let v2 : ZyanVector A := { v with capacity := cap2 }
        if alloc.reallocateOk cap2 then (ZyanStatus.Success, v2)
        else (ZyanStatus.AllocatorFailed, v2)

/-- `ZyanVectorShiftLeft` (Vector.c lines 139-154): moves
`vector->size - index` slots from slot `index + count` down to slot
`index`. -/
def ZyanVectorShiftLeft {A : Type} (v : ZyanVector A) (index count : Nat) :
    ZyanVector A :=
  { v with data := memmove v.data index (index + count) (v.size - index) }

/-- `ZyanVectorShiftRight` (Vector.c lines 166-180): moves
`vector->size - index` slots from slot `index` up to slot
`index + count`. -/
def ZyanVectorShiftRight {A : Type} (v : ZyanVector A) (index count : Nat) :
    ZyanVector A :=
  { v with data := memmove v.data (index + count) index (v.size - index) }

/-- `ZyanVectorInitEx` (Vector.c lines 198-219) for a non-null destination
and allocator; `data` is the memory the allocator hands out.  On allocator
failure the struct fields have already been written (returned for
completeness). -/
def ZyanVectorInitEx {A : Type} (alloc : ZyanAllocator)
    (growth_factor shrink_threshold : ℚ) (element_size capacity : Nat)
    (data : Nat → A) : ZyanStatus × Option (ZyanVector A) :=
  if element_size = 0 ∨ growth_factor < 1 ∨ shrink_threshold < 0 ∨
      1 < shrink_threshold then
    (ZyanStatus.InvalidArgument, none)
  else
    let v : ZyanVector A :=
      { allocator := some alloc, growth_factor := growth_factor,
        shrink_threshold := shrink_threshold, size := 0,
        capacity := max ZYAN_VECTOR_MIN_CAPACITY capacity,
        element_size := element_size, data := data }
    if alloc.allocateOk v.capacity then (ZyanStatus.Success, some v)
    else (ZyanStatus.AllocatorFailed, some v)

/-- `ZyanVectorInitBuffer` (Vector.c lines 221-238) for a non-null
destination and buffer: borrowing mode, growth factor 1.0, shrink
threshold 0.0, capacity exactly the buffer capacity. -/
def ZyanVectorInitBuffer {A : Type} (element_size capacity : Nat)
    (data : Nat → A) : ZyanStatus × Option (ZyanVector A) :=
  if element_size = 0 ∨ capacity = 0 then (ZyanStatus.InvalidArgument, none)
  else
    (ZyanStatus.Success, some
      { allocator := none, growth_factor := 1, shrink_threshold := 0,
        size := 0, capacity := capacity, element_size := element_size,
        data := data })

/-- Model of the `ZYAN_CHECK` macro on a call returning a (status, state)
pair: when the call failed, its status is returned immediately (with
whatever state the call left behind); otherwise the continuation runs on
the resulting state. -/
def zyanCheck {A : Type} (r : ZyanStatus × ZyanVector A)
    (k : ZyanVector A → ZyanStatus × ZyanVector A) :
    ZyanStatus × ZyanVector A :=
  if r.1 = ZyanStatus.Success then k r.2 else r

/-- `ZyanVectorDestroy` (Vector.c lines 240-258) for a non-null vector. -/
def ZyanVectorDestroy {A : Type} (v : ZyanVector A) : ZyanStatus :=
  match v.allocator with
  | some alloc =>
      if v.capacity ≠ 0 then
        (if alloc.deallocateOk v.capacity then ZyanStatus.Success
         else ZyanStatus.AllocatorFailed)
      else ZyanStatus.Success
  | none => ZyanStatus.Success

/-- `ZyanVectorGet` (Vector.c lines 264-281) for non-null arguments; the
returned pointer is modelled by the element value it addresses. -/
def ZyanVectorGet {A : Type} (v : ZyanVector A) (index : Nat) :
    ZyanStatus × Option A :=
  if v.size ≤ index then (ZyanStatus.OutOfRange, none)
  else (ZyanStatus.Success, some (v.data index))

/-- `ZyanVectorGetConst` (Vector.c lines 283-300) for non-null
arguments. -/
def ZyanVectorGetConst {A : Type} (v : ZyanVector A) (index : Nat) :
    ZyanStatus × Option A :=
  if v.size ≤ index then (ZyanStatus.OutOfRange, none)
  else (ZyanStatus.Success, some (v.data index))

/-- `ZyanVectorAssign` (Vector.c lines 306-324) for non-null arguments:
copies one element into slot `index`. -/
def ZyanVectorAssign {A : Type} (v : ZyanVector A) (index : Nat)
    (element : A) : ZyanStatus × ZyanVector A :=
  if v.size ≤ index then (ZyanStatus.OutOfRange, v)
  else
    (ZyanStatus.Success,
      { v with data := memcpy v.data index (fun _ => element) 1 })

/-- The growth step shared by `ZyanVectorPush` and
`ZyanVectorInsertElements` (Vector.c lines 340-344 and 374-378): when the
desired size exceeds the capacity, reallocate to
`ZYAN_MAX(1, (ZyanUSize)(desired * growth_factor))`. -/
def growIfNeeded {A : Type} (v : ZyanVector A) (desired : Nat) :
    ZyanStatus × ZyanVector A :=
  if desired > v.capacity then
    ZyanVectorReallocate v (zyanCapTarget desired v.growth_factor)
  else (ZyanStatus.Success, v)

/-- `ZyanVectorPush` (Vector.c lines 330-352) for non-null arguments:
grow when `size + 1 > capacity` to
`ZYAN_MAX(1, (ZyanUSize)((size + 1) * growth_factor))`, then write the
element at slot `size` and increment `size`.  A reallocation failure is
returned as-is (`ZYAN_CHECK`), with whatever state the reallocation left
behind. -/
def ZyanVectorPush {A : Type} (v : ZyanVector A) (element : A) :
    ZyanStatus × ZyanVector A :=
  zyanCheck (growIfNeeded v (uadd v.size 1))
    (fun v1 =>
      (ZyanStatus.Success,
        { v1 with
          data := memcpy v1.data v1.size (fun _ => element) 1
          size := uadd v1.size 1 }))

/-- `ZyanVectorInsertElements` (Vector.c lines 359-390) for non-null
arguments: argument checks, optional growth to
`ZYAN_MAX(1, (ZyanUSize)((size + count) * growth_factor))`, right shift of
the tail when inserting strictly inside, bulk copy of the new elements,
`size += count`. -/
def ZyanVectorInsertElements {A : Type} (v : ZyanVector A) (index : Nat)
    (elements : Nat → A) (count : Nat) : ZyanStatus × ZyanVector A :=
  if count = 0 then (ZyanStatus.InvalidArgument, v)
  else if v.size < index then (ZyanStatus.OutOfRange, v)
  else
    zyanCheck (growIfNeeded v (uadd v.size count))
      (fun v1 =>
        let v2 := if index < v1.size then
          ZyanVectorShiftRight v1 index count else v1
        (ZyanStatus.Success,
          { v2 with
            data := memcpy v2.data index elements count
            size := uadd v2.size count }))

/-- `ZyanVectorInsert` (Vector.c lines 354-357): insert one element. -/
def ZyanVectorInsert {A : Type} (v : ZyanVector A) (index : Nat)
    (element : A) : ZyanStatus × ZyanVector A :=
  ZyanVectorInsertElements v index (fun _ => element) 1

/-- `ZyanVectorDeleteElements` (Vector.c lines 401-425) for a non-null
vector: checks `count != 0` and `index < size` only, shifts left when
`index < size - 1`, then `size -= count` (wrapping unsigned subtraction)
and evaluates the shrink rule `size < capacity * shrink_threshold` with
shrink target `ZYAN_MAX(1, (ZyanUSize)(size * growth_factor))`. -/
def ZyanVectorDeleteElements {A : Type} (v : ZyanVector A)
    (index count : Nat) : ZyanStatus × ZyanVector A :=
  if count = 0 then (ZyanStatus.InvalidArgument, v)
  else if v.size ≤ index then (ZyanStatus.OutOfRange, v)
  else
    let v1 := if index < v.size - 1 then ZyanVectorShiftLeft v index count
      else v
    let v2 : ZyanVector A := { v1 with size := usub v1.size count }
    if (v2.size : ℚ) < (v2.capacity : ℚ) * v2.shrink_threshold then
      ZyanVectorReallocate v2 (zyanCapTarget v2.size v2.growth_factor)
    else (ZyanStatus.Success, v2)

/-- `ZyanVectorDelete` (Vector.c lines 396-399): delete one element. -/
def ZyanVectorDelete {A : Type} (v : ZyanVector A) (index : Nat) :
    ZyanStatus × ZyanVector A :=
  ZyanVectorDeleteElements v index 1

/-- `ZyanVectorPop` (Vector.c lines 427-446) for a non-null vector. -/
def ZyanVectorPop {A : Type} (v : ZyanVector A) :
    ZyanStatus × ZyanVector A :=
  if v.size = 0 then (ZyanStatus.OutOfRange, v)
  else
    let v1 : ZyanVector A := { v with size := v.size - 1 }
    if (v1.size : ℚ) < (v1.capacity : ℚ) * v1.shrink_threshold then
      ZyanVectorReallocate v1 (zyanCapTarget v1.size v1.growth_factor)
    else (ZyanStatus.Success, v1)

/-- `ZyanVectorResize` (Vector.c lines 457-473) for a non-null vector.
Note the reallocation target here is `(ZyanUSize)(size * growth_factor)`
without the `ZYAN_MAX(1, _)` clamp of the push/insert/delete sites. -/
def ZyanVectorResize {A : Type} (v : ZyanVector A) (size : Nat) :
    ZyanStatus × ZyanVector A :=
  if size > v.capacity ∨
      (size : ℚ) < (v.capacity : ℚ) * v.shrink_threshold then
    zyanCheck
      (ZyanVectorReallocate v (((size : ℚ) * v.growth_factor).floor.toNat))
      (fun v1 => (ZyanStatus.Success, { v1 with size := size }))
  else (ZyanStatus.Success, { v with size := size })

/-- `ZyanVectorClear` (Vector.c lines 448-451). -/
def ZyanVectorClear {A : Type} (v : ZyanVector A) :
    ZyanStatus × ZyanVector A :=
  ZyanVectorResize v 0

/-- `ZyanVectorReserve` (Vector.c lines 475-488) for a non-null vector. -/
def ZyanVectorReserve {A : Type} (v : ZyanVector A) (capacity : Nat) :
    ZyanStatus × ZyanVector A :=
  if capacity > v.capacity then
    zyanCheck (ZyanVectorReallocate v capacity)
      (fun v1 => (ZyanStatus.Success, v1))
  else (ZyanStatus.Success, v)

/-- `ZyanVectorShrinkToFit` (Vector.c lines 490-493): a bare call to the
reallocation helper with the current size; there is no argument check. -/
def ZyanVectorShrinkToFit {A : Type} (v : ZyanVector A) :
    ZyanStatus × ZyanVector A :=
  ZyanVectorReallocate v v.size

/-- `ZyanVectorSize` (Vector.c lines 499-509) for non-null arguments. -/
def ZyanVectorSize {A : Type} (v : ZyanVector A) : ZyanStatus × Nat :=
  (ZyanStatus.Success, v.size)

/-- `ZyanVectorCapacity` (Vector.c lines 511-521) for non-null
arguments. -/
def ZyanVectorCapacity {A : Type} (v : ZyanVector A) : ZyanStatus × Nat :=
  (ZyanStatus.Success, v.capacity)

/-- Well-formedness invariant of the spec data model: live count within
capacity and the minimum-capacity floor. -/
def VecInv {A : Type} (v : ZyanVector A) : Prop :=
  v.size ≤ v.capacity ∧ 1 ≤ v.capacity

instance {A : Type} (v : ZyanVector A) : Decidable (VecInv v) := by
  unfold VecInv; infer_instance

/-- Field consistency guaranteed by the public constructors: a borrowing
vector (no allocator) has growth factor 1 and shrink threshold 0. -/
def ModeOk {A : Type} (v : ZyanVector A) : Prop :=
  v.allocator.isNone = true → v.growth_factor = 1 ∧ v.shrink_threshold = 0

instance {A : Type} (v : ZyanVector A) : Decidable (ModeOk v) := by
  unfold ModeOk; infer_instance

/-- Borrowing-mode state exactly as `ZyanVectorInitBuffer` establishes it:
no allocator, growth factor 1, shrink threshold 0. -/
def BorrowOk {A : Type} (v : ZyanVector A) : Prop :=
  v.allocator.isNone = true ∧ v.growth_factor = 1 ∧ v.shrink_threshold = 0

instance {A : Type} (v : ZyanVector A) : Decidable (BorrowOk v) := by
  unfold BorrowOk; infer_instance

/-! Null-pointer layer of the public API.  A `ZyanVector*` argument is
`Option (ZyanVector Nat)` (`none` is the null pointer) and the result is
`Option ZyanStatus`: the status the call returns, or `none` when the call
dereferences the null pointer (undefined behavior; the debug-only
assertions in the reallocation helper do not exist in release builds).
Every exported function of Vector.c except `ZyanVectorShrinkToFit` begins
with an explicit `if (!vector ...) return ZYAN_STATUS_INVALID_ARGUMENT`
check; `ZyanVectorShrinkToFit` immediately evaluates `vector->size`.  For
the three initializers the checked pointer is the destination struct,
modelled as `Option Unit`. -/

/-- Null-handle behavior of `ZyanVectorInitEx` (check on line 201). -/
def ZyanVectorInitExCall (vec : Option Unit) (alloc : ZyanAllocator)
    (growth_factor shrink_threshold : ℚ) (element_size capacity : Nat) :
    Option ZyanStatus :=
  match vec with
  | none => some ZyanStatus.InvalidArgument
  | some _ => some (ZyanVectorInitEx alloc growth_factor shrink_threshold
      element_size capacity (fun _ => (0 : Nat))).1

/-- Null-handle behavior of `ZyanVectorInitBuffer` (check on line 224). -/
def ZyanVectorInitBufferCall (vec : Option Unit) (element_size capacity : Nat) :
    Option ZyanStatus :=
  match vec with
  | none => some ZyanStatus.InvalidArgument
  | some _ => some (ZyanVectorInitBuffer element_size capacity
      (fun _ => (0 : Nat))).1

/-- Null-handle behavior of `ZyanVectorDestroy` (check on line 242). -/
def ZyanVectorDestroyCall (v : Option (ZyanVector Nat)) : Option ZyanStatus :=
  match v with
  | none => some ZyanStatus.InvalidArgument
  | some v => some (ZyanVectorDestroy v)

/-- Null-handle behavior of `ZyanVectorGet` (check on line 266). -/
def ZyanVectorGetCall (v : Option (ZyanVector Nat)) (index : Nat) :
    Option ZyanStatus :=
  match v with
  | none => some ZyanStatus.InvalidArgument
  | some v => some (ZyanVectorGet v index).1

/-- Null-handle behavior of `ZyanVectorGetConst` (check on line 285). -/
def ZyanVectorGetConstCall (v : Option (ZyanVector Nat)) (index : Nat) :
    Option ZyanStatus :=
  match v with
  | none => some ZyanStatus.InvalidArgument
  | some v => some (ZyanVectorGetConst v index).1

/-- Null-handle behavior of `ZyanVectorAssign` (check on line 308). -/
def ZyanVectorAssignCall (v : Option (ZyanVector Nat)) (index element : Nat) :
    Option ZyanStatus :=
  match v with
  | none => some ZyanStatus.InvalidArgument
  | some v => some (ZyanVectorAssign v index element).1

/-- Null-handle behavior of `ZyanVectorPush` (check on line 332). -/
def ZyanVectorPushCall (v : Option (ZyanVector Nat)) (element : Nat) :
    Option ZyanStatus :=
  match v with
  | none => some ZyanStatus.InvalidArgument
  | some v => some (ZyanVectorPush v element).1

/-- Null-handle behavior of `ZyanVectorInsert` (via the check on
line 362). -/
def ZyanVectorInsertCall (v : Option (ZyanVector Nat)) (index element : Nat) :
    Option ZyanStatus :=
  match v with
  | none => some ZyanStatus.InvalidArgument
  | some v => some (ZyanVectorInsert v index element).1

/-- Null-handle behavior of `ZyanVectorInsertElements` (check on
line 362). -/
def ZyanVectorInsertElementsCall (v : Option (ZyanVector Nat)) (index : Nat)
    (elements : Nat → Nat) (count : Nat) : Option ZyanStatus :=
  match v with
  | none => some ZyanStatus.InvalidArgument
  | some v => some (ZyanVectorInsertElements v index elements count).1

/-- Null-handle behavior of `ZyanVectorDelete` (via the check on
line 403). -/
def ZyanVectorDeleteCall (v : Option (ZyanVector Nat)) (index : Nat) :
    Option ZyanStatus :=
  match v with
  | none => some ZyanStatus.InvalidArgument
  | some v => some (ZyanVectorDelete v index).1

/-- Null-handle behavior of `ZyanVectorDeleteElements` (check on
line 403). -/
def ZyanVectorDeleteElementsCall (v : Option (ZyanVector Nat))
    (index count : Nat) : Option ZyanStatus :=
  match v with
  | none => some ZyanStatus.InvalidArgument
  | some v => some (ZyanVectorDeleteElements v index count).1

/-- Null-handle behavior of `ZyanVectorPop` (check on line 429). -/
def ZyanVectorPopCall (v : Option (ZyanVector Nat)) : Option ZyanStatus :=
  match v with
  | none => some ZyanStatus.InvalidArgument
  | some v => some (ZyanVectorPop v).1

/-- Null-handle behavior of `ZyanVectorClear` (via `ZyanVectorResize`,
check on line 459). -/
def ZyanVectorClearCall (v : Option (ZyanVector Nat)) : Option ZyanStatus :=
  match v with
  | none => some ZyanStatus.InvalidArgument
  | some v => some (ZyanVectorClear v).1

/-- Null-handle behavior of `ZyanVectorResize` (check on line 459). -/
def ZyanVectorResizeCall (v : Option (ZyanVector Nat)) (size : Nat) :
    Option ZyanStatus :=
  match v with
  | none => some ZyanStatus.InvalidArgument
  | some v => some (ZyanVectorResize v size).1

/-- Null-handle behavior of `ZyanVectorReserve` (check on line 477). -/
def ZyanVectorReserveCall (v : Option (ZyanVector Nat)) (capacity : Nat) :
    Option ZyanStatus :=
  match v with
  | none => some ZyanStatus.InvalidArgument
  | some v => some (ZyanVectorReserve v capacity).1

/-- Null-handle behavior of `ZyanVectorShrinkToFit` (lines 490-493): there
is no argument check; the function evaluates `vector->size` on the given
pointer at once, so the null handle is a null dereference (`none`), not an
`InvalidArgument` result. -/
def ZyanVectorShrinkToFitCall (v : Option (ZyanVector Nat)) :
    Option ZyanStatus :=
  match v with
  | none => none
  | some v => some (ZyanVectorShrinkToFit v).1

/-- Null-handle behavior of `ZyanVectorSize` (check on line 501). -/
def ZyanVectorSizeCall (v : Option (ZyanVector Nat)) : Option ZyanStatus :=
  match v with
  | none => some ZyanStatus.InvalidArgument
  | some v => some (ZyanVectorSize v).1

/-- Null-handle behavior of `ZyanVectorCapacity` (check on line 513). -/
def ZyanVectorCapacityCall (v : Option (ZyanVector Nat)) : Option ZyanStatus :=
  match v with
  | none => some ZyanStatus.InvalidArgument
  | some v => some (ZyanVectorCapacity v).1

/-- Capacity formula exactly as the specification words it:
`max(1, ceil(desired_size * growth_factor))`.  Stated from the spec text
for comparison with the `zyanCapTarget` the code computes. -/
def specCapTarget (desired : Nat) (gf : ℚ) : Nat :=
  max 1 (Int.ceil ((desired : ℚ) * gf)).toNat

/-! Concrete fixtures used by witnesses and counterexamples. -/

/-- An allocator whose calls always succeed. -/
def allocAlways : ZyanAllocator :=
  { allocateOk := fun _ => true, reallocateOk := fun _ => true,
    deallocateOk := fun _ => true }

/-- An allocator whose reallocate always fails. -/
def allocNoRealloc : ZyanAllocator :=
  { allocateOk := fun _ => true, reallocateOk := fun _ => false,
    deallocateOk := fun _ => true }

/-- Flat memory holding the given list at the start (zero elsewhere). -/
def listData (l : List Nat) : Nat → Nat := fun a => l.getD a 0

/-- Owning five-element vector `[10, 20, 30, 40, 50]` at capacity 5 with
the default policy (growth 2.0, shrink threshold 0.25). -/
def vFive : ZyanVector Nat :=
  { allocator := some allocAlways, growth_factor := 2,
    shrink_threshold := 1 / 4, size := 5, capacity := 5, element_size := 1,
    data := listData [10, 20, 30, 40, 50] }

/-- Owning three-element vector at capacity 4, default policy: the state
used to exhibit the unchecked wrap-around in `ZyanVectorDeleteElements`. -/
def vWrap : ZyanVector Nat :=
  { allocator := some allocAlways, growth_factor := 2,
    shrink_threshold := 1 / 4, size := 3, capacity := 4, element_size := 1,
    data := listData [10, 20, 30] }

/-- Owning two-element vector at capacity 2 with the non-integer growth
factor 1.5. -/
def vGrow32 : ZyanVector Nat :=
  { allocator := some allocAlways, growth_factor := 3 / 2,
    shrink_threshold := 1 / 4, size := 2, capacity := 2, element_size := 1,
    data := listData [10, 20] }

/-- Owning one-element vector at capacity 1 whose allocator fails every
reallocation. -/
def vFailPush : ZyanVector Nat :=
  { allocator := some allocNoRealloc, growth_factor := 2,
    shrink_threshold := 1 / 4, size := 1, capacity := 1, element_size := 1,
    data := listData [10] }

/-- Borrowing three-element vector over a fixed four-slot buffer (fields
as `ZyanVectorInitBuffer` sets them, after three pushes). -/
def vBor : ZyanVector Nat :=
  { allocator := none, growth_factor := 1, shrink_threshold := 0,
    size := 3, capacity := 4, element_size := 1,
    data := listData [10, 20, 30] }

/-- Owning two-element vector at capacity 2, default policy, used for the
insert-then-delete round trip. -/
def vPair : ZyanVector Nat :=
  { allocator := some allocAlways, growth_factor := 2,
    shrink_threshold := 1 / 4, size := 2, capacity := 2, element_size := 1,
    data := listData [10, 20] }

/-- Owning full vector: four elements at capacity 4, default policy, used
to exhibit the out-of-allocation read of the left shift. -/
def vFull : ZyanVector Nat :=
  { allocator := some allocAlways, growth_factor := 2,
    shrink_threshold := 1 / 4, size := 4, capacity := 4, element_size := 1,
    data := listData [10, 20, 30, 40] }

/-! Arithmetic and memory helper lemmas. -/

theorem uadd_eq_of_lt (a b : Nat) (h : a + b < UMOD) : uadd a b = a + b :=
  Nat.mod_eq_of_lt h

theorem usub_eq_of_le (a b : Nat) (hb : b ≤ a) (ha : a < UMOD) :
    usub a b = a - b := by
  have hu : (0:Nat) < UMOD := by unfold UMOD; positivity
  unfold usub
  rcases Nat.eq_zero_or_pos b with hb0 | hbpos
  · subst hb0
    simp [Nat.mod_eq_of_lt ha, Nat.mod_eq_of_lt hu]
  · have hblt : b < UMOD := lt_of_le_of_lt hb ha
    rw [Nat.mod_eq_of_lt hblt]
    have h2 : a + (UMOD - b) = (a - b) + UMOD := by omega
    rw [h2, Nat.add_mod_right, Nat.mod_eq_of_lt (by omega)]

theorem usub_wrap (a b : Nat) (hb : b < UMOD) (h : a < b) :
    usub a b = a + UMOD - b := by
  unfold usub
  rw [Nat.mod_eq_of_lt hb, Nat.mod_eq_of_lt (by omega)]
  omega

theorem ratFloor_eq_intFloor (q : ℚ) : q.floor = Int.floor q := rfl

theorem le_floor_toNat_mul (d : Nat) (gf : ℚ) (h : 1 ≤ gf) :
    d ≤ (((d : ℚ) * gf).floor).toNat := by
  rw [ratFloor_eq_intFloor]
  have h1 : ((d : ℚ)) ≤ (d : ℚ) * gf :=
    le_mul_of_one_le_right (by positivity) h
  have h2 : (d : ℤ) ≤ Int.floor ((d : ℚ) * gf) := by
    rw [Int.le_floor]
    push_cast
    exact h1
  omega

theorem le_zyanCapTarget (d : Nat) (gf : ℚ) (h : 1 ≤ gf) :
    d ≤ zyanCapTarget d gf :=
  le_trans (le_floor_toNat_mul d gf h) (le_max_right _ _)

theorem one_le_zyanCapTarget (d : Nat) (gf : ℚ) : 1 ≤ zyanCapTarget d gf :=
  le_max_left _ _

theorem memcpy_apply {A : Type} (data : Nat → A) (dest : Nat) (src : Nat → A)
    (n a : Nat) :
    memcpy data dest src n a =
      if dest ≤ a ∧ a < dest + n then src (a - dest) else data a := rfl

theorem memmove_apply {A : Type} (data : Nat → A) (dest src n a : Nat) :
    memmove data dest src n a =
      if dest ≤ a ∧ a < dest + n then data (src + (a - dest)) else data a :=
  rfl

/-! Characterization of the reallocation helper. -/

theorem realloc_none {A : Type} (v : ZyanVector A) (c : Nat)
    (h : v.allocator = none) :
    ZyanVectorReallocate v c =
      (if v.capacity < c then ZyanStatus.InsufficientBufferSize
       else ZyanStatus.Success, v) := by
  simp only [ZyanVectorReallocate, h]
  split <;> rfl

theorem realloc_some_pos {A : Type} (v : ZyanVector A) (a : ZyanAllocator)
    (c : Nat) (h : v.allocator = some a) (hc : 1 ≤ c) :
    ZyanVectorReallocate v c =
      (if a.reallocateOk c then ZyanStatus.Success
       else ZyanStatus.AllocatorFailed, { v with capacity := c }) := by
  have h1 : ¬ c < 1 := by omega
  simp only [ZyanVectorReallocate, h, ZYAN_VECTOR_MIN_CAPACITY, h1, false_and,
    if_false]
  split <;> rfl

theorem realloc_some_zero {A : Type} (v : ZyanVector A) (a : ZyanAllocator)
    (h : v.allocator = some a) :
    ZyanVectorReallocate v 0 =
      (if 1 < v.capacity then
        (if a.reallocateOk 1 then ZyanStatus.Success
         else ZyanStatus.AllocatorFailed, { v with capacity := 1 })
       else (ZyanStatus.Success, v)) := by
  simp only [ZyanVectorReallocate, h, ZYAN_VECTOR_MIN_CAPACITY,
    Nat.zero_lt_one, true_and, if_pos]
  by_cases hcap : 1 < v.capacity
  · rw [if_pos hcap, if_neg (by simpa using hcap)]
    split <;> rfl
  · rw [if_neg hcap, if_pos (by simpa using hcap)]

theorem realloc_fields {A : Type} (v : ZyanVector A) (c : Nat) :
    (ZyanVectorReallocate v c).2.size = v.size ∧
    (ZyanVectorReallocate v c).2.data = v.data ∧
    (ZyanVectorReallocate v c).2.allocator = v.allocator ∧
    (ZyanVectorReallocate v c).2.growth_factor = v.growth_factor ∧
    (ZyanVectorReallocate v c).2.shrink_threshold = v.shrink_threshold ∧
    (ZyanVectorReallocate v c).2.element_size = v.element_size := by
  cases h : v.allocator with
  | none =>
      rw [realloc_none v c h]
      by_cases hlt : v.capacity < c <;> simp [hlt, h]
  | some a =>
      rcases Nat.eq_zero_or_pos c with h0 | hpos
      · subst h0
        rw [realloc_some_zero v a h]
        by_cases hcap : 1 < v.capacity
        · rw [if_pos hcap]
          by_cases hro : a.reallocateOk 1 <;> simp [hro, h]
        · rw [if_neg hcap]
          simp [h]
      · rw [realloc_some_pos v a c h hpos]
        by_cases hro : a.reallocateOk c <;> simp [hro, h]

/-! Lemmas about the check combinator and the shared growth step. -/

theorem zyanCheck_pos {A : Type} (r : ZyanStatus × ZyanVector A)
    (k : ZyanVector A → ZyanStatus × ZyanVector A)
    (h : r.1 = ZyanStatus.Success) : zyanCheck r k = k r.2 := by
  unfold zyanCheck
  exact if_pos h

theorem zyanCheck_neg {A : Type} (r : ZyanStatus × ZyanVector A)
    (k : ZyanVector A → ZyanStatus × ZyanVector A)
    (h : ¬ r.1 = ZyanStatus.Success) : zyanCheck r k = r := by
  unfold zyanCheck
  exact if_neg h

theorem zyanCheck_success_out {A : Type} (r : ZyanStatus × ZyanVector A)
    (k : ZyanVector A → ZyanStatus × ZyanVector A)
    (hs : (zyanCheck r k).1 = ZyanStatus.Success) :
    r.1 = ZyanStatus.Success ∧ zyanCheck r k = k r.2 := by
  by_cases h : r.1 = ZyanStatus.Success
  · exact ⟨h, zyanCheck_pos r k h⟩
  · rw [zyanCheck_neg r k h] at hs
    exact absurd hs h

theorem growIfNeeded_fields {A : Type} (v : ZyanVector A) (d : Nat) :
    (growIfNeeded v d).2.size = v.size ∧
    (growIfNeeded v d).2.data = v.data ∧
    (growIfNeeded v d).2.allocator = v.allocator ∧
    (growIfNeeded v d).2.growth_factor = v.growth_factor ∧
    (growIfNeeded v d).2.shrink_threshold = v.shrink_threshold ∧
    (growIfNeeded v d).2.element_size = v.element_size := by
  unfold growIfNeeded
  by_cases h : d > v.capacity
  · rw [if_pos h]
    exact realloc_fields v _
  · rw [if_neg h]
    exact ⟨rfl, rfl, rfl, rfl, rfl, rfl⟩

theorem growIfNeeded_success_cap {A : Type} (v : ZyanVector A) (d : Nat)
    (hgf : 1 ≤ v.growth_factor) (hcap : 1 ≤ v.capacity)
    (hs : (growIfNeeded v d).1 = ZyanStatus.Success) :
    d ≤ (growIfNeeded v d).2.capacity ∧ 1 ≤ (growIfNeeded v d).2.capacity := by
  unfold growIfNeeded at hs ⊢
  by_cases h : d > v.capacity
  · rw [if_pos h] at hs ⊢
    have ht1 : 1 ≤ zyanCapTarget d v.growth_factor :=
      one_le_zyanCapTarget d v.growth_factor
    have htd : d ≤ zyanCapTarget d v.growth_factor :=
      le_zyanCapTarget d v.growth_factor hgf
    cases ha : v.allocator with
    | none =>
        rw [realloc_none v _ ha] at hs ⊢
        by_cases hlt : v.capacity < zyanCapTarget d v.growth_factor
        · rw [if_pos hlt] at hs
          exact absurd hs (by simp)
        · exact ⟨by dsimp; omega, by dsimp; omega⟩
    | some a =>
        rw [realloc_some_pos v a _ ha ht1] at hs ⊢
        exact ⟨by dsimp; omega, by dsimp; omega⟩
  · rw [if_neg h] at hs ⊢
    exact ⟨by dsimp; omega, by dsimp; omega⟩

theorem growIfNeeded_success_cap_eq {A : Type} (v : ZyanVector A) (d : Nat)
    (hd : d > v.capacity)
    (ha : v.allocator.isSome = true) :
    (growIfNeeded v d).2.capacity = zyanCapTarget d v.growth_factor := by
  unfold growIfNeeded
  rw [if_pos hd]
  obtain ⟨a, ha2⟩ := Option.isSome_iff_exists.1 ha
  rw [realloc_some_pos v a _ ha2 (one_le_zyanCapTarget d v.growth_factor)]

theorem growIfNeeded_failed {A : Type} (v : ZyanVector A) (d : Nat)
    (hf : ¬ (growIfNeeded v d).1 = ZyanStatus.Success) :
    (growIfNeeded v d).2.size = v.size ∧
    (growIfNeeded v d).2.data = v.data ∧
    ((growIfNeeded v d).2.capacity = v.capacity ∨
      (growIfNeeded v d).1 = ZyanStatus.AllocatorFailed) := by
  unfold growIfNeeded at hf ⊢
  by_cases h : d > v.capacity
  · rw [if_pos h] at hf ⊢
    cases ha : v.allocator with
    | none =>
        rw [realloc_none v _ ha] at hf ⊢
        by_cases hlt : v.capacity < zyanCapTarget d v.growth_factor <;>
          simp [hlt] at hf ⊢
    | some a =>
        have ht1 : 1 ≤ zyanCapTarget d v.growth_factor :=
          one_le_zyanCapTarget d v.growth_factor
        rw [realloc_some_pos v a _ ha ht1] at hf ⊢
        by_cases hro : a.reallocateOk (zyanCapTarget d v.growth_factor) <;>
          simp [hro] at hf ⊢
  · rw [if_neg h] at hf
    exact absurd rfl hf

/-! Pointwise behavior of the two shift primitives. -/

theorem shiftLeft_data {A : Type} (v : ZyanVector A) (i c a : Nat) :
    (ZyanVectorShiftLeft v i c).data a =
      if i ≤ a ∧ a < i + (v.size - i) then v.data (a + c) else v.data a := by
  show memmove v.data i (i + c) (v.size - i) a = _
  rw [memmove_apply]
  split
  case isTrue h =>
    congr 1
    omega
  case isFalse h => rfl

theorem shiftRight_data {A : Type} (v : ZyanVector A) (i c a : Nat) :
    (ZyanVectorShiftRight v i c).data a =
      if i + c ≤ a ∧ a < i + c + (v.size - i) then v.data (a - c)
      else v.data a := by
  show memmove v.data (i + c) i (v.size - i) a = _
  rw [memmove_apply]
  split
  case isTrue h =>
    congr 1
    omega
  case isFalse h => rfl

theorem shiftLeft_size {A : Type} (v : ZyanVector A) (i c : Nat) :
    (ZyanVectorShiftLeft v i c).size = v.size := rfl

theorem shiftRight_size {A : Type} (v : ZyanVector A) (i c : Nat) :
    (ZyanVectorShiftRight v i c).size = v.size := rfl

/-! Behavior of `ZyanVectorInsertElements` on success. -/

theorem insertElements_success_spec {A : Type} (v : ZyanVector A) (i : Nat)
    (es : Nat → A) (c : Nat) (hW : v.size + c < UMOD) (hi : i ≤ v.size)
    (hs : (ZyanVectorInsertElements v i es c).1 = ZyanStatus.Success) :
    (growIfNeeded v (uadd v.size c)).1 = ZyanStatus.Success ∧
    (ZyanVectorInsertElements v i es c).2.size = v.size + c ∧
    (ZyanVectorInsertElements v i es c).2.capacity =
      (growIfNeeded v (uadd v.size c)).2.capacity ∧
    (∀ a, a < i → (ZyanVectorInsertElements v i es c).2.data a = v.data a) ∧
    (∀ a, i ≤ a → a < i + c →
      (ZyanVectorInsertElements v i es c).2.data a = es (a - i)) ∧
    (∀ a, i + c ≤ a → a < v.size + c →
      (ZyanVectorInsertElements v i es c).2.data a = v.data (a - c)) := by
  by_cases hc : c = 0
  · subst hc
    unfold ZyanVectorInsertElements at hs
    simp at hs
  have hii : ¬ v.size < i := not_lt.2 hi
  unfold ZyanVectorInsertElements at hs ⊢
  rw [if_neg hc, if_neg hii] at hs ⊢
  obtain ⟨hg, heq⟩ := zyanCheck_success_out _ _ hs
  rw [heq]
  dsimp only
  obtain ⟨hsz, hdat, -, -, -, -⟩ := growIfNeeded_fields v (uadd v.size c)
  have hu : uadd v.size c = v.size + c := uadd_eq_of_lt _ _ hW
  by_cases hlt : i < (growIfNeeded v (uadd v.size c)).2.size
  · rw [if_pos hlt]
    refine ⟨hg, ?_, ?_, ?_, ?_, ?_⟩
    · rw [shiftRight_size, hsz, hu]
    · rfl
    · intro a ha
      rw [memcpy_apply, if_neg (by omega), shiftRight_data, hsz, hdat,
        if_neg (by omega)]
    · intro a ha1 ha2
      rw [memcpy_apply, if_pos (by omega)]
    · intro a ha1 ha2
      rw [memcpy_apply, if_neg (by omega), shiftRight_data, hsz, hdat,
        if_pos (by omega)]
  · rw [if_neg hlt]
    rw [hsz] at hlt
    refine ⟨hg, ?_, ?_, ?_, ?_, ?_⟩
    · rw [hsz, hu]
    · rfl
    · intro a ha
      rw [memcpy_apply, if_neg (by omega), hdat]
    · intro a ha1 ha2
      rw [memcpy_apply, if_pos (by omega)]
    · intro a ha1 ha2
      omega

/-! Behavior of `ZyanVectorDeleteElements` on arguments that stay within
the live region (`index + count ≤ size`). -/

theorem deleteElements_valid_spec {A : Type} (v : ZyanVector A) (i c : Nat)
    (hW : v.size < UMOD) (hc : c ≠ 0) (hvalid : i + c ≤ v.size) :
    (ZyanVectorDeleteElements v i c).2.size = v.size - c ∧
    (∀ a, a < i → (ZyanVectorDeleteElements v i c).2.data a = v.data a) ∧
    (∀ a, i ≤ a → a < v.size - c →
      (ZyanVectorDeleteElements v i c).2.data a = v.data (a + c)) ∧
    (ZyanVectorDeleteElements v i c).2.allocator = v.allocator ∧
    (ZyanVectorDeleteElements v i c).2.growth_factor = v.growth_factor ∧
    (ZyanVectorDeleteElements v i c).2.shrink_threshold =
      v.shrink_threshold := by
  have hi : i < v.size := by omega
  have hile : ¬ v.size ≤ i := not_le.2 hi
  unfold ZyanVectorDeleteElements
  rw [if_neg hc, if_neg hile]
  dsimp only
  set v1 : ZyanVector A := if i < v.size - 1 then ZyanVectorShiftLeft v i c
    else v with hv1def
  have hv1sz : v1.size = v.size := by
    rw [hv1def]
    split
    · exact shiftLeft_size v i c
    · rfl
  have hv1alloc : v1.allocator = v.allocator := by
    rw [hv1def]
    split <;> rfl
  have hv1gf : v1.growth_factor = v.growth_factor := by
    rw [hv1def]
    split <;> rfl
  have hv1st : v1.shrink_threshold = v.shrink_threshold := by
    rw [hv1def]
    split <;> rfl
  have husub : usub v1.size c = v.size - c := by
    rw [hv1sz]
    exact usub_eq_of_le v.size c (by omega) hW
  have hdleft : ∀ a, a < i → v1.data a = v.data a := by
    intro a ha
    rw [hv1def]
    split
    · rw [shiftLeft_data, if_neg (by omega)]
    · rfl
  have hdmid : ∀ a, i ≤ a → a < v.size - c → v1.data a = v.data (a + c) := by
    intro a ha1 ha2
    rw [hv1def]
    split
    case isTrue h => rw [shiftLeft_data, if_pos (by omega)]
    case isFalse h => omega
  split
  case isTrue h =>
    obtain ⟨rsz, rdat, ralloc, rgf, rst, -⟩ :=
      realloc_fields { v1 with size := usub v1.size c }
        (zyanCapTarget (usub v1.size c) v1.growth_factor)
    rw [rsz, rdat, ralloc, rgf, rst]
    exact ⟨husub, hdleft, hdmid, hv1alloc, hv1gf, hv1st⟩
  case isFalse h =>
    exact ⟨husub, hdleft, hdmid, hv1alloc, hv1gf, hv1st⟩

/-! Preservation of the data-model invariant by each successful public
operation. -/

theorem push_inv {A : Type} (v : ZyanVector A) (e : A) (hinv : VecInv v)
    (hgf : 1 ≤ v.growth_factor) (hW : v.size + 1 < UMOD)
    (hs : (ZyanVectorPush v e).1 = ZyanStatus.Success) :
    VecInv (ZyanVectorPush v e).2 := by
  obtain ⟨h1, h2⟩ := hinv
  unfold ZyanVectorPush at hs ⊢
  obtain ⟨hg, heq⟩ := zyanCheck_success_out _ _ hs
  rw [heq]
  dsimp only
  obtain ⟨hsz, -, -, -, -, -⟩ := growIfNeeded_fields v (uadd v.size 1)
  have hu : uadd v.size 1 = v.size + 1 := uadd_eq_of_lt _ _ hW
  obtain ⟨hd, h1c⟩ := growIfNeeded_success_cap v (uadd v.size 1) hgf h2 hg
  constructor
  · show uadd (growIfNeeded v (uadd v.size 1)).2.size 1 ≤
      (growIfNeeded v (uadd v.size 1)).2.capacity
    rw [hsz, hu] at *
    omega
  · exact h1c

theorem insertElements_inv {A : Type} (v : ZyanVector A) (i : Nat)
    (es : Nat → A) (c : Nat) (hinv : VecInv v)
    (hgf : 1 ≤ v.growth_factor) (hW : v.size + c < UMOD)
    (hs : (ZyanVectorInsertElements v i es c).1 = ZyanStatus.Success) :
    VecInv (ZyanVectorInsertElements v i es c).2 := by
  obtain ⟨h1, h2⟩ := hinv
  by_cases hc : c = 0
  · subst hc
    unfold ZyanVectorInsertElements at hs
    simp at hs
  by_cases hii : v.size < i
  · unfold ZyanVectorInsertElements at hs
    rw [if_neg hc, if_pos hii] at hs
    simp at hs
  unfold ZyanVectorInsertElements at hs ⊢
  rw [if_neg hc, if_neg hii] at hs ⊢
  obtain ⟨hg, heq⟩ := zyanCheck_success_out _ _ hs
  rw [heq]
  dsimp only
  obtain ⟨hsz, -, -, -, -, -⟩ := growIfNeeded_fields v (uadd v.size c)
  have hu : uadd v.size c = v.size + c := uadd_eq_of_lt _ _ hW
  obtain ⟨hd, h1c⟩ := growIfNeeded_success_cap v (uadd v.size c) hgf h2 hg
  by_cases hlt : i < (growIfNeeded v (uadd v.size c)).2.size
  · rw [if_pos hlt]
    constructor
    · show uadd (ZyanVectorShiftRight (growIfNeeded v (uadd v.size c)).2
          i c).size c ≤ (growIfNeeded v (uadd v.size c)).2.capacity
      rw [shiftRight_size, hsz, hu] at *
      omega
    · exact h1c
  · rw [if_neg hlt]
    constructor
    · show uadd (growIfNeeded v (uadd v.size c)).2.size c ≤
        (growIfNeeded v (uadd v.size c)).2.capacity
      rw [hsz, hu] at *
      omega
    · exact h1c

theorem deleteElements_inv {A : Type} (v : ZyanVector A) (i c : Nat)
    (hinv : VecInv v) (hgf : 1 ≤ v.growth_factor) (hW : v.size < UMOD)
    (hok : i + c ≤ v.size ∨ c = 0 ∨ v.size ≤ i) :
    VecInv (ZyanVectorDeleteElements v i c).2 := by
  obtain ⟨h1, h2⟩ := hinv
  by_cases hc : c = 0
  · unfold ZyanVectorDeleteElements
    rw [if_pos hc]
    exact ⟨h1, h2⟩
  by_cases hile : v.size ≤ i
  · unfold ZyanVectorDeleteElements
    rw [if_neg hc, if_pos hile]
    exact ⟨h1, h2⟩
  have hvalid : i + c ≤ v.size := by
    rcases hok with h | h | h
    · exact h
    · exact absurd h hc
    · exact absurd h hile
  unfold ZyanVectorDeleteElements
  rw [if_neg hc, if_neg hile]
  dsimp only
  set v1 : ZyanVector A := if i < v.size - 1 then ZyanVectorShiftLeft v i c
    else v with hv1def
  have hv1sz : v1.size = v.size := by
    rw [hv1def]
    split
    · exact shiftLeft_size v i c
    · rfl
  have hv1cap : v1.capacity = v.capacity := by
    rw [hv1def]
    split <;> rfl
  have hv1gf : v1.growth_factor = v.growth_factor := by
    rw [hv1def]
    split <;> rfl
  have hv1alloc : v1.allocator = v.allocator := by
    rw [hv1def]
    split <;> rfl
  have husub : usub v1.size c = v.size - c := by
    rw [hv1sz]
    exact usub_eq_of_le v.size c (by omega) hW
  split
  next h =>
    have ht1 : 1 ≤ zyanCapTarget (usub v1.size c) v1.growth_factor :=
      one_le_zyanCapTarget _ _
    have htd : usub v1.size c ≤
        zyanCapTarget (usub v1.size c) v1.growth_factor := by
      rw [hv1gf]
      exact le_zyanCapTarget _ _ hgf
    set v2 : ZyanVector A := { v1 with size := usub v1.size c } with hv2def
    have hv2sz : v2.size = usub v1.size c := by rw [hv2def]
    have hv2cap : v2.capacity = v1.capacity := by rw [hv2def]
    have hv2alloc : v2.allocator = v1.allocator := by rw [hv2def]
    cases ha : v2.allocator with
    | none =>
        rw [realloc_none v2 _ ha]
        constructor
        · rw [hv2sz, husub, hv2cap, hv1cap]
          omega
        · rw [hv2cap, hv1cap]
          exact h2
    | some a =>
        rw [realloc_some_pos v2 a _ ha ht1]
        constructor
        · show v2.size ≤ zyanCapTarget (usub v1.size c) v1.growth_factor
          rw [hv2sz]
          exact htd
        · exact ht1
  next h =>
    constructor
    · show usub v1.size c ≤ v1.capacity
      rw [husub, hv1cap]
      omega
    · show 1 ≤ v1.capacity
      rw [hv1cap]
      exact h2

theorem pop_inv {A : Type} (v : ZyanVector A) (hinv : VecInv v)
    (hgf : 1 ≤ v.growth_factor) : VecInv (ZyanVectorPop v).2 := by
  obtain ⟨h1, h2⟩ := hinv
  unfold ZyanVectorPop
  by_cases h0 : v.size = 0
  · rw [if_pos h0]
    exact ⟨h1, h2⟩
  · rw [if_neg h0]
    dsimp only
    split
    next h =>
      have ht1 : 1 ≤ zyanCapTarget (v.size - 1) v.growth_factor :=
        one_le_zyanCapTarget _ _
      have htd : v.size - 1 ≤ zyanCapTarget (v.size - 1) v.growth_factor :=
        le_zyanCapTarget _ _ hgf
      set v1 : ZyanVector A := { v with size := v.size - 1 } with hv1def
      have hv1sz : v1.size = v.size - 1 := by rw [hv1def]
      have hv1cap : v1.capacity = v.capacity := by rw [hv1def]
      cases ha : v1.allocator with
      | none =>
          rw [realloc_none v1 _ ha]
          constructor
          · rw [hv1sz, hv1cap]
            omega
          · rw [hv1cap]
            exact h2
      | some a =>
          rw [realloc_some_pos v1 a _ ha ht1]
          constructor
          · show v1.size ≤ zyanCapTarget (v.size - 1) v.growth_factor
            rw [hv1sz]
            exact htd
          · exact ht1
    next h =>
      constructor
      · show v.size - 1 ≤ v.capacity
        omega
      · exact h2

theorem resize_inv {A : Type} (v : ZyanVector A) (s : Nat) (hinv : VecInv v)
    (hgf : 1 ≤ v.growth_factor)
    (hs : (ZyanVectorResize v s).1 = ZyanStatus.Success) :
    VecInv (ZyanVectorResize v s).2 := by
  obtain ⟨h1, h2⟩ := hinv
  unfold ZyanVectorResize at hs ⊢
  by_cases ht : (s > v.capacity ∨
      (s : ℚ) < (v.capacity : ℚ) * v.shrink_threshold)
  · rw [if_pos ht] at hs ⊢
    obtain ⟨hg, heq⟩ := zyanCheck_success_out _ _ hs
    rw [heq]
    dsimp only
    have hts : s ≤ ((s : ℚ) * v.growth_factor).floor.toNat :=
      le_floor_toNat_mul s v.growth_factor hgf
    cases ha : v.allocator with
    | none =>
        rw [realloc_none v _ ha] at hg ⊢
        by_cases hlt : v.capacity < ((s : ℚ) * v.growth_factor).floor.toNat
        · rw [if_pos hlt] at hg
          simp at hg
        · constructor
          · show s ≤ v.capacity
            omega
          · exact h2
    | some a =>
        rcases Nat.eq_zero_or_pos (((s : ℚ) * v.growth_factor).floor.toNat)
          with ht0 | htpos
        · rw [ht0] at hts ⊢
          rw [realloc_some_zero v a ha]
          by_cases hcap : 1 < v.capacity
          · rw [if_pos hcap]
            refine ⟨?_, le_refl 1⟩
            show s ≤ 1
            omega
          · rw [if_neg hcap]
            refine ⟨?_, h2⟩
            show s ≤ v.capacity
            omega
        · rw [realloc_some_pos v a _ ha htpos]
          exact ⟨hts, htpos⟩
  · rw [if_neg ht]
    push_neg at ht
    exact ⟨ht.1, h2⟩

theorem clear_inv {A : Type} (v : ZyanVector A) (hinv : VecInv v)
    (hgf : 1 ≤ v.growth_factor)
    (hs : (ZyanVectorClear v).1 = ZyanStatus.Success) :
    VecInv (ZyanVectorClear v).2 :=
  resize_inv v 0 hinv hgf hs

theorem reserve_inv {A : Type} (v : ZyanVector A) (c : Nat) (hinv : VecInv v)
    (hs : (ZyanVectorReserve v c).1 = ZyanStatus.Success) :
    VecInv (ZyanVectorReserve v c).2 := by
  obtain ⟨h1, h2⟩ := hinv
  unfold ZyanVectorReserve at hs ⊢
  by_cases ht : c > v.capacity
  · rw [if_pos ht] at hs ⊢
    obtain ⟨hg, heq⟩ := zyanCheck_success_out _ _ hs
    rw [heq]
    dsimp only
    cases ha : v.allocator with
    | none =>
        rw [realloc_none v c ha] at hg ⊢
        rw [if_pos ht] at hg
        simp at hg
    | some a =>
        rw [realloc_some_pos v a c ha (by omega)]
        refine ⟨?_, ?_⟩
        · show v.size ≤ c
          omega
        · show 1 ≤ c
          omega
  · rw [if_neg ht]
    exact ⟨h1, h2⟩

theorem shrinkToFit_inv {A : Type} (v : ZyanVector A) (hinv : VecInv v) :
    VecInv (ZyanVectorShrinkToFit v).2 := by
  obtain ⟨h1, h2⟩ := hinv
  unfold ZyanVectorShrinkToFit
  cases ha : v.allocator with
  | none =>
      rw [realloc_none v _ ha]
      exact ⟨h1, h2⟩
  | some a =>
      rcases Nat.eq_zero_or_pos v.size with h0 | hpos
      · rw [h0, realloc_some_zero v a ha]
        by_cases hcap : 1 < v.capacity
        · rw [if_pos hcap]
          refine ⟨?_, le_refl 1⟩
          show v.size ≤ 1
          omega
        · rw [if_neg hcap]
          exact ⟨h1, h2⟩
      · rw [realloc_some_pos v a _ ha hpos]
        exact ⟨le_refl v.size, hpos⟩

theorem assign_inv {A : Type} (v : ZyanVector A) (i : Nat) (e : A)
    (hinv : VecInv v) : VecInv (ZyanVectorAssign v i e).2 := by
  obtain ⟨h1, h2⟩ := hinv
  unfold ZyanVectorAssign
  by_cases h : v.size ≤ i
  · rw [if_pos h]
    exact ⟨h1, h2⟩
  · rw [if_neg h]
    exact ⟨h1, h2⟩

/-! Behavior of the mutating operations on failure. -/

theorem realloc_failed {A : Type} (v : ZyanVector A) (c : Nat)
    (hf : ¬ (ZyanVectorReallocate v c).1 = ZyanStatus.Success) :
    (ZyanVectorReallocate v c).2.size = v.size ∧
    (ZyanVectorReallocate v c).2.data = v.data ∧
    ((ZyanVectorReallocate v c).2.capacity = v.capacity ∨
      (ZyanVectorReallocate v c).1 = ZyanStatus.AllocatorFailed) := by
  obtain ⟨hsz, hdat, -, -, -, -⟩ := realloc_fields v c
  refine ⟨hsz, hdat, ?_⟩
  cases ha : v.allocator with
  | none =>
      rw [realloc_none v c ha]
      left
      rfl
  | some a =>
      rcases Nat.eq_zero_or_pos c with h0 | hpos
      · subst h0
        rw [realloc_some_zero v a ha] at hf ⊢
        by_cases hcap : 1 < v.capacity
        · rw [if_pos hcap] at hf ⊢
          by_cases hro : a.reallocateOk 1
          · rw [if_pos hro] at hf
            simp at hf
          · rw [if_neg hro]
            right
            rfl
        · rw [if_neg hcap] at hf
          simp at hf
      · rw [realloc_some_pos v a c ha hpos] at hf ⊢
        by_cases hro : a.reallocateOk c
        · rw [if_pos hro] at hf
          simp at hf
        · rw [if_neg hro]
          right
          rfl

theorem push_failed {A : Type} (v : ZyanVector A) (e : A)
    (hf : ¬ (ZyanVectorPush v e).1 = ZyanStatus.Success) :
    (ZyanVectorPush v e).2.size = v.size ∧
    (ZyanVectorPush v e).2.data = v.data ∧
    ((ZyanVectorPush v e).2.capacity = v.capacity ∨
      (ZyanVectorPush v e).1 = ZyanStatus.AllocatorFailed) := by
  unfold ZyanVectorPush at *
  by_cases hg : (growIfNeeded v (uadd v.size 1)).1 = ZyanStatus.Success
  · rw [zyanCheck_pos _ _ hg] at hf
    simp at hf
  · rw [zyanCheck_neg _ _ hg] at hf ⊢
    obtain ⟨h1, h2, h3⟩ := growIfNeeded_failed v _ hg
    exact ⟨h1, h2, h3⟩

theorem insertElements_failed {A : Type} (v : ZyanVector A) (i : Nat)
    (es : Nat → A) (c : Nat)
    (hf : ¬ (ZyanVectorInsertElements v i es c).1 = ZyanStatus.Success) :
    (ZyanVectorInsertElements v i es c).2.size = v.size ∧
    (ZyanVectorInsertElements v i es c).2.data = v.data ∧
    ((ZyanVectorInsertElements v i es c).2.capacity = v.capacity ∨
      (ZyanVectorInsertElements v i es c).1 = ZyanStatus.AllocatorFailed) := by
  unfold ZyanVectorInsertElements at *
  by_cases hc : c = 0
  · rw [if_pos hc] at hf ⊢
    exact ⟨rfl, rfl, Or.inl rfl⟩
  rw [if_neg hc] at hf ⊢
  by_cases hii : v.size < i
  · rw [if_pos hii] at hf ⊢
    exact ⟨rfl, rfl, Or.inl rfl⟩
  rw [if_neg hii] at hf ⊢
  by_cases hg : (growIfNeeded v (uadd v.size c)).1 = ZyanStatus.Success
  · rw [zyanCheck_pos _ _ hg] at hf
    simp at hf
  · rw [zyanCheck_neg _ _ hg] at hf ⊢
    obtain ⟨h1, h2, h3⟩ := growIfNeeded_failed v _ hg
    exact ⟨h1, h2, h3⟩

theorem reserve_failed {A : Type} (v : ZyanVector A) (c : Nat)
    (hf : ¬ (ZyanVectorReserve v c).1 = ZyanStatus.Success) :
    (ZyanVectorReserve v c).2.size = v.size ∧
    (ZyanVectorReserve v c).2.data = v.data ∧
    ((ZyanVectorReserve v c).2.capacity = v.capacity ∨
      (ZyanVectorReserve v c).1 = ZyanStatus.AllocatorFailed) := by
  unfold ZyanVectorReserve at *
  by_cases ht : c > v.capacity
  · rw [if_pos ht] at hf ⊢
    by_cases hr : (ZyanVectorReallocate v c).1 = ZyanStatus.Success
    · rw [zyanCheck_pos _ _ hr] at hf
      simp at hf
    · rw [zyanCheck_neg _ _ hr] at hf ⊢
      exact realloc_failed v c hr
  · rw [if_neg ht] at hf
    simp at hf

theorem resize_failed {A : Type} (v : ZyanVector A) (s : Nat)
    (hf : ¬ (ZyanVectorResize v s).1 = ZyanStatus.Success) :
    (ZyanVectorResize v s).2.size = v.size ∧
    (ZyanVectorResize v s).2.data = v.data ∧
    ((ZyanVectorResize v s).2.capacity = v.capacity ∨
      (ZyanVectorResize v s).1 = ZyanStatus.AllocatorFailed) := by
  unfold ZyanVectorResize at *
  by_cases ht : (s > v.capacity ∨
      (s : ℚ) < (v.capacity : ℚ) * v.shrink_threshold)
  · rw [if_pos ht] at hf ⊢
    by_cases hr : (ZyanVectorReallocate v
        (((s : ℚ) * v.growth_factor).floor.toNat)).1 = ZyanStatus.Success
    · rw [zyanCheck_pos _ _ hr] at hf
      simp at hf
    · rw [zyanCheck_neg _ _ hr] at hf ⊢
      exact realloc_failed v _ hr
  · rw [if_neg ht] at hf
    simp at hf

theorem shrinkToFit_failed {A : Type} (v : ZyanVector A)
    (hf : ¬ (ZyanVectorShrinkToFit v).1 = ZyanStatus.Success) :
    (ZyanVectorShrinkToFit v).2.size = v.size ∧
    (ZyanVectorShrinkToFit v).2.data = v.data ∧
    ((ZyanVectorShrinkToFit v).2.capacity = v.capacity ∨
      (ZyanVectorShrinkToFit v).1 = ZyanStatus.AllocatorFailed) :=
  realloc_failed v v.size hf

theorem pop_failed {A : Type} (v : ZyanVector A) (hmode : ModeOk v)
    (hf : ¬ (ZyanVectorPop v).1 = ZyanStatus.Success) :
    ((ZyanVectorPop v).1 = ZyanStatus.OutOfRange ∧ (ZyanVectorPop v).2 = v) ∨
    ((ZyanVectorPop v).1 = ZyanStatus.AllocatorFailed ∧
      (ZyanVectorPop v).2.size = v.size - 1 ∧
      (ZyanVectorPop v).2.data = v.data) := by
  unfold ZyanVectorPop at *
  by_cases h0 : v.size = 0
  · rw [if_pos h0] at hf ⊢
    exact Or.inl ⟨rfl, rfl⟩
  rw [if_neg h0] at hf ⊢
  dsimp only at hf ⊢
  set v1 : ZyanVector A := { v with size := v.size - 1 } with hv1def
  have hv1sz : v1.size = v.size - 1 := by rw [hv1def]
  have hv1alloc : v1.allocator = v.allocator := by rw [hv1def]
  have hv1st : v1.shrink_threshold = v.shrink_threshold := by rw [hv1def]
  by_cases hsh : ((v.size - 1 : Nat) : ℚ) <
      (v.capacity : ℚ) * v.shrink_threshold
  · rw [if_pos hsh] at hf ⊢
    right
    cases ha : v1.allocator with
    | none =>
        have hst : v.shrink_threshold = 0 :=
          (hmode (by rw [← hv1alloc, ha]; rfl)).2
        rw [hst, mul_zero] at hsh
        exact absurd hsh (not_lt.2 (Nat.cast_nonneg _))
    | some a =>
        have ht1 : 1 ≤ zyanCapTarget (v.size - 1) v.growth_factor :=
          one_le_zyanCapTarget _ _
        rw [realloc_some_pos v1 a _ ha ht1] at hf ⊢
        by_cases hro : a.reallocateOk (zyanCapTarget (v.size - 1)
            v.growth_factor)
        · rw [if_pos hro] at hf
          simp at hf
        · rw [if_neg hro] at hf ⊢
          refine ⟨rfl, ?_, ?_⟩
          · show v1.size = v.size - 1
            exact hv1sz
          · show v1.data = v.data
            rw [hv1def]
  · rw [if_neg hsh] at hf
    simp at hf

theorem deleteElements_failed {A : Type} (v : ZyanVector A) (i c : Nat)
    (hmode : ModeOk v)
    (hf : ¬ (ZyanVectorDeleteElements v i c).1 = ZyanStatus.Success) :
    (((ZyanVectorDeleteElements v i c).1 = ZyanStatus.InvalidArgument ∨
      (ZyanVectorDeleteElements v i c).1 = ZyanStatus.OutOfRange) ∧
      (ZyanVectorDeleteElements v i c).2 = v) ∨
    ((ZyanVectorDeleteElements v i c).1 = ZyanStatus.AllocatorFailed ∧
      (ZyanVectorDeleteElements v i c).2.size = usub v.size c) := by
  unfold ZyanVectorDeleteElements at *
  by_cases hc : c = 0
  · rw [if_pos hc] at hf ⊢
    exact Or.inl ⟨Or.inl rfl, rfl⟩
  rw [if_neg hc] at hf ⊢
  by_cases hile : v.size ≤ i
  · rw [if_pos hile] at hf ⊢
    exact Or.inl ⟨Or.inr rfl, rfl⟩
  rw [if_neg hile] at hf ⊢
  dsimp only at hf ⊢
  set v1 : ZyanVector A := if i < v.size - 1 then ZyanVectorShiftLeft v i c
    else v with hv1def
  have hv1sz : v1.size = v.size := by
    rw [hv1def]
    split
    · exact shiftLeft_size v i c
    · rfl
  have hv1alloc : v1.allocator = v.allocator := by
    rw [hv1def]
    split <;> rfl
  have hv1st : v1.shrink_threshold = v.shrink_threshold := by
    rw [hv1def]
    split <;> rfl
  by_cases hsh : ((usub v1.size c : Nat) : ℚ) <
      (v1.capacity : ℚ) * v1.shrink_threshold
  · rw [if_pos hsh] at hf ⊢
    set v2 : ZyanVector A := { v1 with size := usub v1.size c } with hv2def
    have hv2sz : v2.size = usub v1.size c := by rw [hv2def]
    have hv2alloc : v2.allocator = v1.allocator := by rw [hv2def]
    right
    cases ha : v2.allocator with
    | none =>
        have hst : v.shrink_threshold = 0 :=
          (hmode (by rw [← hv1alloc, ← hv2alloc, ha]; rfl)).2
        rw [hv1st, hst, mul_zero] at hsh
        exact absurd hsh (not_lt.2 (Nat.cast_nonneg _))
    | some a =>
        have ht1 : 1 ≤ zyanCapTarget (usub v1.size c) v1.growth_factor :=
          one_le_zyanCapTarget _ _
        rw [realloc_some_pos v2 a _ ha ht1] at hf ⊢
        by_cases hro : a.reallocateOk (zyanCapTarget (usub v1.size c)
            v1.growth_factor)
        · rw [if_pos hro] at hf
          simp at hf
        · rw [if_neg hro] at hf ⊢
          refine ⟨rfl, ?_⟩
          show v2.size = usub v.size c
          rw [hv2sz, hv1sz]
  · rw [if_neg hsh] at hf
    simp at hf

/-! Borrowing mode: no operation ever changes the capacity or the policy
fields, and capacity requests beyond the fixed buffer fail with
`InsufficientBufferSize` leaving the state untouched. -/

theorem realloc_none_state {A : Type} (v : ZyanVector A) (c : Nat)
    (h : v.allocator = none) : (ZyanVectorReallocate v c).2 = v := by
  rw [realloc_none v c h]

theorem growIfNeeded_none_state {A : Type} (v : ZyanVector A) (d : Nat)
    (h : v.allocator = none) : (growIfNeeded v d).2 = v := by
  unfold growIfNeeded
  split
  · exact realloc_none_state v _ h
  · rfl

theorem zyanCapTarget_one (d : Nat) : zyanCapTarget d 1 = max 1 d := by
  unfold zyanCapTarget
  rw [mul_one, ratFloor_eq_intFloor, Int.floor_natCast]
  simp


theorem borrow_push {A : Type} (v : ZyanVector A) (e : A) (hb : BorrowOk v) :
    BorrowOk (ZyanVectorPush v e).2 ∧
    (ZyanVectorPush v e).2.capacity = v.capacity ∧
    (v.size + 1 < UMOD → v.capacity < v.size + 1 →
      ZyanVectorPush v e = (ZyanStatus.InsufficientBufferSize, v)) := by
  obtain ⟨hn, hgf1, hst0⟩ := hb
  have hnone : v.allocator = none := Option.isNone_iff_eq_none.1 hn
  unfold ZyanVectorPush
  have hgs : (growIfNeeded v (uadd v.size 1)).2 = v :=
    growIfNeeded_none_state v _ hnone
  refine ⟨?_, ?_, ?_⟩
  · by_cases hg : (growIfNeeded v (uadd v.size 1)).1 = ZyanStatus.Success
    · rw [zyanCheck_pos _ _ hg, hgs]
      exact ⟨hn, hgf1, hst0⟩
    · rw [zyanCheck_neg _ _ hg, hgs]
      exact ⟨hn, hgf1, hst0⟩
  · by_cases hg : (growIfNeeded v (uadd v.size 1)).1 = ZyanStatus.Success
    · rw [zyanCheck_pos _ _ hg, hgs]
    · rw [zyanCheck_neg _ _ hg, hgs]
  · intro hW hlt
    have hu : uadd v.size 1 = v.size + 1 := uadd_eq_of_lt _ _ hW
    have hgrow : growIfNeeded v (uadd v.size 1) =
        (ZyanStatus.InsufficientBufferSize, v) := by
      unfold growIfNeeded
      rw [hu, if_pos hlt, hgf1, zyanCapTarget_one, realloc_none v _ hnone,
        if_pos (by omega)]
    rw [zyanCheck_neg _ _ (by rw [hgrow]; simp), hgrow]

theorem borrow_insertElements {A : Type} (v : ZyanVector A) (i : Nat)
    (es : Nat → A) (c : Nat) (hb : BorrowOk v) :
    BorrowOk (ZyanVectorInsertElements v i es c).2 ∧
    (ZyanVectorInsertElements v i es c).2.capacity = v.capacity ∧
    (c ≠ 0 → i ≤ v.size → v.size + c < UMOD → v.capacity < v.size + c →
      ZyanVectorInsertElements v i es c =
        (ZyanStatus.InsufficientBufferSize, v)) := by
  obtain ⟨hn, hgf1, hst0⟩ := hb
  have hnone : v.allocator = none := Option.isNone_iff_eq_none.1 hn
  unfold ZyanVectorInsertElements
  have hgs : (growIfNeeded v (uadd v.size c)).2 = v :=
    growIfNeeded_none_state v _ hnone
  have hmain : ∀ hc : ¬ c = 0, ∀ hii : ¬ v.size < i,
      BorrowOk (zyanCheck (growIfNeeded v (uadd v.size c)) (fun v1 =>
        (ZyanStatus.Success,
          { (if i < v1.size then ZyanVectorShiftRight v1 i c else v1) with
            data := memcpy (if i < v1.size then ZyanVectorShiftRight v1 i c
              else v1).data i es c
            size := uadd (if i < v1.size then ZyanVectorShiftRight v1 i c
              else v1).size c }))).2 ∧
      (zyanCheck (growIfNeeded v (uadd v.size c)) (fun v1 =>
        (ZyanStatus.Success,
          { (if i < v1.size then ZyanVectorShiftRight v1 i c else v1) with
            data := memcpy (if i < v1.size then ZyanVectorShiftRight v1 i c
              else v1).data i es c
            size := uadd (if i < v1.size then ZyanVectorShiftRight v1 i c
              else v1).size c }))).2.capacity = v.capacity := by
    intro hc hii
    by_cases hg : (growIfNeeded v (uadd v.size c)).1 = ZyanStatus.Success
    · rw [zyanCheck_pos _ _ hg, hgs]
      constructor
      · refine ⟨?_, ?_, ?_⟩ <;> split <;>
          first
          | exact hn
          | exact hgf1
          | exact hst0
      · split <;> rfl
    · rw [zyanCheck_neg _ _ hg, hgs]
      exact ⟨⟨hn, hgf1, hst0⟩, rfl⟩
  refine ⟨?_, ?_, ?_⟩
  · by_cases hc : c = 0
    · rw [if_pos hc]
      exact ⟨hn, hgf1, hst0⟩
    rw [if_neg hc]
    by_cases hii : v.size < i
    · rw [if_pos hii]
      exact ⟨hn, hgf1, hst0⟩
    · rw [if_neg hii]
      exact (hmain hc hii).1
  · by_cases hc : c = 0
    · rw [if_pos hc]
    rw [if_neg hc]
    by_cases hii : v.size < i
    · rw [if_pos hii]
    · rw [if_neg hii]
      exact (hmain hc hii).2
  · intro hc hi hW hlt
    have hii : ¬ v.size < i := not_lt.2 hi
    rw [if_neg hc, if_neg hii]
    have hu : uadd v.size c = v.size + c := uadd_eq_of_lt _ _ hW
    have hgrow : growIfNeeded v (uadd v.size c) =
        (ZyanStatus.InsufficientBufferSize, v) := by
      unfold growIfNeeded
      rw [hu, if_pos hlt, hgf1, zyanCapTarget_one, realloc_none v _ hnone,
        if_pos (by omega)]
    rw [zyanCheck_neg _ _ (by rw [hgrow]; simp), hgrow]

theorem borrow_reserve {A : Type} (v : ZyanVector A) (c : Nat)
    (hb : BorrowOk v) :
    BorrowOk (ZyanVectorReserve v c).2 ∧
    (ZyanVectorReserve v c).2.capacity = v.capacity ∧
    (v.capacity < c →
      ZyanVectorReserve v c = (ZyanStatus.InsufficientBufferSize, v)) ∧
    (c ≤ v.capacity → ZyanVectorReserve v c = (ZyanStatus.Success, v)) := by
  obtain ⟨hn, hgf1, hst0⟩ := hb
  have hnone : v.allocator = none := Option.isNone_iff_eq_none.1 hn
  unfold ZyanVectorReserve
  have hre : ZyanVectorReallocate v c =
      (if v.capacity < c then ZyanStatus.InsufficientBufferSize
       else ZyanStatus.Success, v) := realloc_none v c hnone
  refine ⟨?_, ?_, ?_, ?_⟩
  · by_cases ht : c > v.capacity
    · rw [if_pos ht, hre, if_pos ht,
        zyanCheck_neg _ _ (by simp)]
      exact ⟨hn, hgf1, hst0⟩
    · rw [if_neg ht]
      exact ⟨hn, hgf1, hst0⟩
  · by_cases ht : c > v.capacity
    · rw [if_pos ht, hre, if_pos ht, zyanCheck_neg _ _ (by simp)]
    · rw [if_neg ht]
  · intro hlt
    rw [if_pos hlt, hre, if_pos hlt, zyanCheck_neg _ _ (by simp)]
  · intro hle
    rw [if_neg (by omega)]

theorem borrow_resize {A : Type} (v : ZyanVector A) (s : Nat)
    (hb : BorrowOk v) :
    BorrowOk (ZyanVectorResize v s).2 ∧
    (ZyanVectorResize v s).2.capacity = v.capacity ∧
    (v.capacity < s →
      ZyanVectorResize v s = (ZyanStatus.InsufficientBufferSize, v)) ∧
    (s ≤ v.capacity →
      ZyanVectorResize v s = (ZyanStatus.Success, { v with size := s })) := by
  obtain ⟨hn, hgf1, hst0⟩ := hb
  have hnone : v.allocator = none := Option.isNone_iff_eq_none.1 hn
  have hnoshrink : ¬ (s : ℚ) < (v.capacity : ℚ) * v.shrink_threshold := by
    rw [hst0, mul_zero]
    exact not_lt.2 (Nat.cast_nonneg s)
  unfold ZyanVectorResize
  refine ⟨?_, ?_, ?_, ?_⟩
  · by_cases ht : s > v.capacity
    · rw [if_pos (Or.inl ht)]
      have htgt : v.capacity < ((s : ℚ) * v.growth_factor).floor.toNat := by
        rw [hgf1, mul_one, ratFloor_eq_intFloor, Int.floor_natCast]
        simpa using ht
      rw [realloc_none v _ hnone, if_pos htgt, zyanCheck_neg _ _ (by simp)]
      exact ⟨hn, hgf1, hst0⟩
    · rw [if_neg (by push_neg; exact ⟨not_lt.1 ht, not_lt.1 hnoshrink⟩)]
      exact ⟨hn, hgf1, hst0⟩
  · by_cases ht : s > v.capacity
    · rw [if_pos (Or.inl ht)]
      have htgt : v.capacity < ((s : ℚ) * v.growth_factor).floor.toNat := by
        rw [hgf1, mul_one, ratFloor_eq_intFloor, Int.floor_natCast]
        simpa using ht
      rw [realloc_none v _ hnone, if_pos htgt, zyanCheck_neg _ _ (by simp)]
    · rw [if_neg (by push_neg; exact ⟨not_lt.1 ht, not_lt.1 hnoshrink⟩)]
  · intro hlt
    rw [if_pos (Or.inl hlt)]
    have htgt : v.capacity < ((s : ℚ) * v.growth_factor).floor.toNat := by
      rw [hgf1, mul_one, ratFloor_eq_intFloor, Int.floor_natCast]
      simpa using hlt
    rw [realloc_none v _ hnone, if_pos htgt, zyanCheck_neg _ _ (by simp)]
  · intro hle
    rw [if_neg (by push_neg; exact ⟨by omega, not_lt.1 hnoshrink⟩)]

theorem borrow_shrinkToFit {A : Type} (v : ZyanVector A) (hb : BorrowOk v)
    (hsz : v.size ≤ v.capacity) :
    ZyanVectorShrinkToFit v = (ZyanStatus.Success, v) := by
  obtain ⟨hn, hgf1, hst0⟩ := hb
  have hnone : v.allocator = none := Option.isNone_iff_eq_none.1 hn
  unfold ZyanVectorShrinkToFit
  rw [realloc_none v _ hnone, if_neg (by omega)]

theorem borrow_deleteElements {A : Type} (v : ZyanVector A) (i c : Nat)
    (hb : BorrowOk v) :
    BorrowOk (ZyanVectorDeleteElements v i c).2 ∧
    (ZyanVectorDeleteElements v i c).2.capacity = v.capacity := by
  obtain ⟨hn, hgf1, hst0⟩ := hb
  unfold ZyanVectorDeleteElements
  by_cases hc : c = 0
  · rw [if_pos hc]
    exact ⟨⟨hn, hgf1, hst0⟩, rfl⟩
  rw [if_neg hc]
  by_cases hile : v.size ≤ i
  · rw [if_pos hile]
    exact ⟨⟨hn, hgf1, hst0⟩, rfl⟩
  rw [if_neg hile]
  dsimp only
  set v1 : ZyanVector A := if i < v.size - 1 then ZyanVectorShiftLeft v i c
    else v with hv1def
  have hv1st : v1.shrink_threshold = v.shrink_threshold := by
    rw [hv1def]
    split <;> rfl
  have hv1cap : v1.capacity = v.capacity := by
    rw [hv1def]
    split <;> rfl
  have hv1n : v1.allocator.isNone = true := by
    rw [hv1def]
    split <;> exact hn
  have hv1gf : v1.growth_factor = v.growth_factor := by
    rw [hv1def]
    split <;> rfl
  have hnoshrink : ¬ ((usub v1.size c : Nat) : ℚ) <
      (v1.capacity : ℚ) * v1.shrink_threshold := by
    rw [hv1st, hst0, mul_zero]
    exact not_lt.2 (Nat.cast_nonneg _)
  rw [if_neg hnoshrink]
  refine ⟨⟨hv1n, ?_, ?_⟩, ?_⟩
  · show v1.growth_factor = 1
    rw [hv1gf, hgf1]
  · show v1.shrink_threshold = 0
    rw [hv1st, hst0]
  · exact hv1cap

theorem borrow_pop {A : Type} (v : ZyanVector A) (hb : BorrowOk v) :
    BorrowOk (ZyanVectorPop v).2 ∧
    (ZyanVectorPop v).2.capacity = v.capacity := by
  obtain ⟨hn, hgf1, hst0⟩ := hb
  unfold ZyanVectorPop
  by_cases h0 : v.size = 0
  · rw [if_pos h0]
    exact ⟨⟨hn, hgf1, hst0⟩, rfl⟩
  rw [if_neg h0]
  dsimp only
  have hnoshrink : ¬ ((v.size - 1 : Nat) : ℚ) <
      (v.capacity : ℚ) * v.shrink_threshold := by
    rw [hst0, mul_zero]
    exact not_lt.2 (Nat.cast_nonneg _)
  rw [if_neg hnoshrink]
  exact ⟨⟨hn, hgf1, hst0⟩, rfl⟩

theorem borrow_assign {A : Type} (v : ZyanVector A) (i : Nat) (e : A)
    (hb : BorrowOk v) :
    BorrowOk (ZyanVectorAssign v i e).2 ∧
    (ZyanVectorAssign v i e).2.capacity = v.capacity := by
  obtain ⟨hn, hgf1, hst0⟩ := hb
  unfold ZyanVectorAssign
  by_cases h : v.size ≤ i
  · rw [if_pos h]
    exact ⟨⟨hn, hgf1, hst0⟩, rfl⟩
  · rw [if_neg h]
    exact ⟨⟨hn, hgf1, hst0⟩, rfl⟩

theorem borrow_clear {A : Type} (v : ZyanVector A) (hb : BorrowOk v) :
    BorrowOk (ZyanVectorClear v).2 ∧
    (ZyanVectorClear v).2.capacity = v.capacity :=
  ⟨(borrow_resize v 0 hb).1, (borrow_resize v 0 hb).2.1⟩

/-! Concrete evaluation of the capacity target. -/

theorem zyanCapTarget_eq (d : Nat) (gf : ℚ) (n : Nat)
    (h1 : (n : ℚ) ≤ (d : ℚ) * gf) (h2 : (d : ℚ) * gf < (n : ℚ) + 1)
    (h3 : 1 ≤ n) : zyanCapTarget d gf = n := by
  unfold zyanCapTarget
  rw [ratFloor_eq_intFloor]
  have hfl : Int.floor ((d : ℚ) * gf) = (n : ℤ) := by
    rw [Int.floor_eq_iff]
    constructor
    · exact_mod_cast h1
    · exact_mod_cast h2
  rw [hfl]
  omega

theorem zyanCapTarget_8_2 : zyanCapTarget 8 2 = 16 :=
  zyanCapTarget_eq 8 2 16 (by norm_num) (by norm_num) (by norm_num)

theorem zyanCapTarget_3_2 : zyanCapTarget 3 2 = 6 :=
  zyanCapTarget_eq 3 2 6 (by norm_num) (by norm_num) (by norm_num)

theorem zyanCapTarget_3_32 : zyanCapTarget 3 (3 / 2) = 4 :=
  zyanCapTarget_eq 3 (3 / 2) 4 (by norm_num) (by norm_num) (by norm_num)

theorem zyanCapTarget_2_2 : zyanCapTarget 2 2 = 4 :=
  zyanCapTarget_eq 2 2 4 (by norm_num) (by norm_num) (by norm_num)

theorem c7_grow_eq : growIfNeeded vFive (uadd vFive.size 3) =
    (ZyanStatus.Success, { vFive with capacity := 16 }) := by
  have h8 : uadd vFive.size 3 = 8 := by norm_num [uadd, UMOD, vFive]
  unfold growIfNeeded
  rw [h8, if_pos (by norm_num [vFive]),
    show vFive.growth_factor = 2 from rfl, zyanCapTarget_8_2,
    realloc_some_pos vFive allocAlways 16 rfl (by norm_num)]
  simp [allocAlways]

/-- C7: inserting three elements at index 2 of the five-element vector
`[10, 20, 30, 40, 50]` at capacity 5 (growth factor 2.0) succeeds, grows
the capacity to `ceil(8 * 2.0) = 16`, moves the elements originally at
indices [2, 5) to [5, 8), writes the three new elements at [2, 5), and
yields `orig[0..2] + new[0..3] + orig[2..5]` with `count = 8`. -/
theorem claim_C7_insertMany_growth_scenario :
    (ZyanVectorInsertElements vFive 2 (listData [77, 88, 99]) 3).1 =
      ZyanStatus.Success ∧
    (ZyanVectorInsertElements vFive 2 (listData [77, 88, 99]) 3).2.capacity
      = 16 ∧
    (ZyanVectorInsertElements vFive 2 (listData [77, 88, 99]) 3).2.size
      = 8 ∧
    (ZyanVectorInsertElements vFive 2 (listData [77, 88, 99]) 3).2.data 0
      = 10 ∧
    (ZyanVectorInsertElements vFive 2 (listData [77, 88, 99]) 3).2.data 1
      = 20 ∧
    (ZyanVectorInsertElements vFive 2 (listData [77, 88, 99]) 3).2.data 2
      = 77 ∧
    (ZyanVectorInsertElements vFive 2 (listData [77, 88, 99]) 3).2.data 3
      = 88 ∧
    (ZyanVectorInsertElements vFive 2 (listData [77, 88, 99]) 3).2.data 4
      = 99 ∧
    (ZyanVectorInsertElements vFive 2 (listData [77, 88, 99]) 3).2.data 5
      = 30 ∧
    (ZyanVectorInsertElements vFive 2 (listData [77, 88, 99]) 3).2.data 6
      = 40 ∧
    (ZyanVectorInsertElements vFive 2 (listData [77, 88, 99]) 3).2.data 7
      = 50 := by
  unfold ZyanVectorInsertElements
  rw [if_neg (by norm_num), if_neg (by norm_num [vFive]), c7_grow_eq,
    zyanCheck_pos _ _ rfl]
  dsimp only
  rw [if_pos (by norm_num [vFive])]
  refine ⟨rfl, rfl, ?_, ?_, ?_, ?_, ?_, ?_, ?_, ?_, ?_⟩ <;>
    norm_num [uadd, UMOD, memcpy_apply, shiftRight_data, shiftRight_size,
      vFive, listData]

/-- C3: when elements remain after the deleted range
(`index + count < size`) and the call returns `Success`,
`ZyanVectorDeleteElements` closes the gap by shifting the tail left by
`count` slots and decrements the count by `count`; in particular deleting
two elements at index 1 of `[A, B, C, D, E]` yields `[A, D, E]` with
count 3 (concrete instance in the witness). -/
theorem claim_C3_deleteMany_closes_gap {A : Type} (v : ZyanVector A)
    (i c : Nat) (hW : v.size < UMOD) (hc : c ≠ 0) (hrem : i + c < v.size)
    (_hs : (ZyanVectorDeleteElements v i c).1 = ZyanStatus.Success) :
    (ZyanVectorDeleteElements v i c).2.size = v.size - c ∧
    (∀ a, a < i → (ZyanVectorDeleteElements v i c).2.data a = v.data a) ∧
    (∀ a, i ≤ a → a < v.size - c →
      (ZyanVectorDeleteElements v i c).2.data a = v.data (a + c)) := by
  obtain ⟨h1, h2, h3, -, -, -⟩ :=
    deleteElements_valid_spec v i c hW hc (le_of_lt hrem)
  exact ⟨h1, h2, h3⟩

theorem shiftLeft_capacity {A : Type} (v : ZyanVector A) (i c : Nat) :
    (ZyanVectorShiftLeft v i c).capacity = v.capacity := rfl

theorem shiftLeft_shrink_threshold {A : Type} (v : ZyanVector A)
    (i c : Nat) :
    (ZyanVectorShiftLeft v i c).shrink_threshold = v.shrink_threshold := rfl

theorem deleteElements_status_noshrink {A : Type} (v : ZyanVector A)
    (i c : Nat) (hc : ¬ c = 0) (hi : ¬ v.size ≤ i)
    (hnoshr : ¬ ((usub v.size c : Nat) : ℚ) <
      (v.capacity : ℚ) * v.shrink_threshold) :
    (ZyanVectorDeleteElements v i c).1 = ZyanStatus.Success := by
  unfold ZyanVectorDeleteElements
  rw [if_neg hc, if_neg hi]
  dsimp only
  set v1 : ZyanVector A := if i < v.size - 1 then ZyanVectorShiftLeft v i c
    else v with hv1def
  have hv1sz : v1.size = v.size := by
    rw [hv1def]
    split
    · exact shiftLeft_size v i c
    · rfl
  have hv1cap : v1.capacity = v.capacity := by
    rw [hv1def]
    split <;> rfl
  have hv1st : v1.shrink_threshold = v.shrink_threshold := by
    rw [hv1def]
    split <;> rfl
  rw [if_neg (by rw [hv1sz, hv1cap, hv1st]; exact hnoshr)]

theorem c3_status : (ZyanVectorDeleteElements vFive 1 2).1 =
    ZyanStatus.Success :=
  deleteElements_status_noshrink vFive 1 2 (by norm_num)
    (by norm_num [vFive]) (by norm_num [usub, UMOD, vFive])

theorem claim_C3_witness :
    (ZyanVectorDeleteElements vFive 1 2).1 = ZyanStatus.Success ∧
    (ZyanVectorDeleteElements vFive 1 2).2.size = 3 ∧
    (ZyanVectorDeleteElements vFive 1 2).2.data 0 = 10 ∧
    (ZyanVectorDeleteElements vFive 1 2).2.data 1 = 40 ∧
    (ZyanVectorDeleteElements vFive 1 2).2.data 2 = 50 := by
  have hmain := claim_C3_deleteMany_closes_gap vFive 1 2
    (by norm_num [vFive, UMOD]) (by norm_num) (by norm_num [vFive]) c3_status
  refine ⟨c3_status, ?_, ?_, ?_, ?_⟩
  · simpa [vFive] using hmain.1
  · simpa [vFive, listData] using hmain.2.1 0 (by norm_num)
  · simpa [vFive, listData] using hmain.2.2 1 (by norm_num)
      (by norm_num [vFive])
  · simpa [vFive, listData] using hmain.2.2 2 (by norm_num)
      (by norm_num [vFive])

theorem c5_grow_eq : growIfNeeded vGrow32 (uadd vGrow32.size 1) =
    (ZyanStatus.Success, { vGrow32 with capacity := 4 }) := by
  have h3 : uadd vGrow32.size 1 = 3 := by norm_num [uadd, UMOD, vGrow32]
  unfold growIfNeeded
  rw [h3, if_pos (by norm_num [vGrow32]),
    show vGrow32.growth_factor = 3 / 2 from rfl, zyanCapTarget_3_32,
    realloc_some_pos vGrow32 allocAlways 4 rfl (by norm_num)]
  simp [allocAlways]

/-- C5 counterexample: with growth factor 1.5, pushing into a full
two-element vector triggers growth with desired size 3; the code computes
`max(1, (ZyanUSize)(3 * 1.5)) = max(1, trunc(4.5)) = 4`, but the formula
claimed by the specification, `max(1, ceil(3 * 1.5))`, equals 5 — the new
capacity does not match the claimed ceiling formula. -/
theorem claim_C5_counterexample :
    (ZyanVectorPush vGrow32 7).1 = ZyanStatus.Success ∧
    vGrow32.capacity < vGrow32.size + 1 ∧
    (ZyanVectorPush vGrow32 7).2.capacity = 4 ∧
    specCapTarget (vGrow32.size + 1) vGrow32.growth_factor = 5 ∧
    ¬ (ZyanVectorPush vGrow32 7).2.capacity =
      specCapTarget (vGrow32.size + 1) vGrow32.growth_factor := by
  have hpush : (ZyanVectorPush vGrow32 7).1 = ZyanStatus.Success ∧
      (ZyanVectorPush vGrow32 7).2.capacity = 4 := by
    unfold ZyanVectorPush
    rw [c5_grow_eq, zyanCheck_pos _ _ rfl]
    exact ⟨rfl, rfl⟩
  have hceil : specCapTarget (vGrow32.size + 1) vGrow32.growth_factor
      = 5 := by
    show specCapTarget 3 (3 / 2) = 5
    unfold specCapTarget
    have h5 : Int.ceil (((3 : Nat) : ℚ) * (3 / 2)) = 5 := by
      rw [Int.ceil_eq_iff]
      constructor <;> norm_num
    rw [h5]
    decide
  refine ⟨hpush.1, by norm_num [vGrow32], hpush.2, hceil, ?_⟩
  rw [hpush.2, hceil]
  norm_num

/-- C5 amended: at every growth site (push with desired size `size + 1`,
insertMany with desired size `size + count`) and every shrink site
(deleteMany and pop, with desired size the new count), the owning-mode
reallocation target is `max(1, trunc(desired * growth_factor))` — the C
float-to-unsigned cast truncates the product (floor for these non-negative
values) rather than taking its ceiling as the specification words it. -/
theorem claim_C5_amended {A : Type} (v : ZyanVector A) (a : ZyanAllocator)
    (ha : v.allocator = some a) (_hgf : 1 ≤ v.growth_factor) :
    (∀ e : A, v.size + 1 < UMOD → v.capacity < v.size + 1 →
      (ZyanVectorPush v e).2.capacity =
        zyanCapTarget (v.size + 1) v.growth_factor) ∧
    (∀ (i : Nat) (es : Nat → A) (c : Nat), c ≠ 0 → i ≤ v.size →
      v.size + c < UMOD → v.capacity < v.size + c →
      (ZyanVectorInsertElements v i es c).2.capacity =
        zyanCapTarget (v.size + c) v.growth_factor) ∧
    (∀ i c : Nat, c ≠ 0 → i + c ≤ v.size → v.size < UMOD →
      ((v.size - c : Nat) : ℚ) < (v.capacity : ℚ) * v.shrink_threshold →
      (ZyanVectorDeleteElements v i c).2.capacity =
        zyanCapTarget (v.size - c) v.growth_factor) ∧
    (v.size ≠ 0 →
      ((v.size - 1 : Nat) : ℚ) < (v.capacity : ℚ) * v.shrink_threshold →
      (ZyanVectorPop v).2.capacity =
        zyanCapTarget (v.size - 1) v.growth_factor) := by
  refine ⟨?_, ?_, ?_, ?_⟩
  · intro e hW hlt
    unfold ZyanVectorPush
    have hu : uadd v.size 1 = v.size + 1 := uadd_eq_of_lt _ _ hW
    have hcapeq := growIfNeeded_success_cap_eq v (uadd v.size 1)
      (by rw [hu]; exact hlt) (by rw [ha]; rfl)
    rw [← hu]
    by_cases hg : (growIfNeeded v (uadd v.size 1)).1 = ZyanStatus.Success
    · rw [zyanCheck_pos _ _ hg]
      exact hcapeq
    · rw [zyanCheck_neg _ _ hg]
      exact hcapeq
  · intro i es c hc hi hW hlt
    unfold ZyanVectorInsertElements
    rw [if_neg hc, if_neg (not_lt.2 hi)]
    have hu : uadd v.size c = v.size + c := uadd_eq_of_lt _ _ hW
    have hcapeq := growIfNeeded_success_cap_eq v (uadd v.size c)
      (by rw [hu]; exact hlt) (by rw [ha]; rfl)
    rw [← hu]
    by_cases hg : (growIfNeeded v (uadd v.size c)).1 = ZyanStatus.Success
    · rw [zyanCheck_pos _ _ hg]
      dsimp only
      split <;> exact hcapeq
    · rw [zyanCheck_neg _ _ hg]
      exact hcapeq
  · intro i c hc hvalid hW hshr
    have hi : i < v.size := by omega
    unfold ZyanVectorDeleteElements
    rw [if_neg hc, if_neg (not_le.2 hi)]
    dsimp only
    set v1 : ZyanVector A := if i < v.size - 1 then ZyanVectorShiftLeft v i c
      else v with hv1def
    have hv1sz : v1.size = v.size := by
      rw [hv1def]
      split
      · exact shiftLeft_size v i c
      · rfl
    have hv1cap : v1.capacity = v.capacity := by
      rw [hv1def]
      split <;> rfl
    have hv1st : v1.shrink_threshold = v.shrink_threshold := by
      rw [hv1def]
      split <;> rfl
    have hv1gf : v1.growth_factor = v.growth_factor := by
      rw [hv1def]
      split <;> rfl
    have hv1alloc : v1.allocator = v.allocator := by
      rw [hv1def]
      split <;> rfl
    have husub : usub v1.size c = v.size - c := by
      rw [hv1sz]
      exact usub_eq_of_le v.size c (by omega) hW
    rw [if_pos (by rw [hv1sz, hv1cap, hv1st,
      usub_eq_of_le v.size c (by omega) hW]; exact hshr)]
    set v2 : ZyanVector A := { v1 with size := usub v1.size c } with hv2def
    have hv2alloc : v2.allocator = some a := by
      rw [hv2def]
      show v1.allocator = some a
      rw [hv1alloc, ha]
    rw [realloc_some_pos v2 a _ hv2alloc (one_le_zyanCapTarget _ _)]
    show zyanCapTarget (usub v1.size c) v1.growth_factor = _
    rw [husub, hv1gf]
  · intro h0 hshr
    unfold ZyanVectorPop
    rw [if_neg h0]
    dsimp only
    rw [if_pos hshr]
    set v1 : ZyanVector A := { v with size := v.size - 1 } with hv1def
    have hv1alloc : v1.allocator = some a := by
      rw [hv1def]
      show v.allocator = some a
      exact ha
    rw [realloc_some_pos v1 a _ hv1alloc (one_le_zyanCapTarget _ _)]

theorem claim_C5_witness :
    (ZyanVectorPush vGrow32 7).2.capacity =
      zyanCapTarget (vGrow32.size + 1) vGrow32.growth_factor ∧
    zyanCapTarget (vGrow32.size + 1) vGrow32.growth_factor = 4 := by
  refine ⟨(claim_C5_amended vGrow32 allocAlways rfl
    (by norm_num [vGrow32])).1 7 (by norm_num [vGrow32, UMOD])
    (by norm_num [vGrow32]), ?_⟩
  show zyanCapTarget 3 (3 / 2) = 4
  exact zyanCapTarget_3_32

theorem c1_wrap_run : ZyanVectorDeleteElements vWrap 2 5 =
    (ZyanStatus.Success, { vWrap with size := usub vWrap.size 5 }) := by
  unfold ZyanVectorDeleteElements
  rw [if_neg (by norm_num), if_neg (by norm_num [vWrap])]
  dsimp only
  rw [if_neg (by norm_num [usub, UMOD, vWrap])]
  rw [if_neg (by norm_num [vWrap])]

/-- C1 counterexample: `deleteMany(index = 2, count = 5)` on an owning
vector with count 3 and capacity 4 passes both argument checks the code
performs (`count != 0` and `index < size`) and returns `Success`, yet the
resulting count is `2^64 - 2`, which exceeds the capacity 4 — so the
invariant `count ≤ capacity` does not survive every `Success`-returning
`deleteMany` whose argument checks pass. -/
theorem claim_C1_counterexample :
    (5 ≠ 0 ∧ 2 < vWrap.size) ∧
    (ZyanVectorDeleteElements vWrap 2 5).1 = ZyanStatus.Success ∧
    ¬ ((ZyanVectorDeleteElements vWrap 2 5).2.size ≤
        (ZyanVectorDeleteElements vWrap 2 5).2.capacity) := by
  refine ⟨⟨by norm_num, by norm_num [vWrap]⟩, ?_, ?_⟩
  · rw [c1_wrap_run]
  · rw [c1_wrap_run]
    show ¬ (usub vWrap.size 5 ≤ vWrap.capacity)
    norm_num [usub, UMOD, vWrap]

/-- C1 amended: for every well-formed vector (`count ≤ capacity`,
`capacity ≥ 1`, growth factor at least 1), every public operation that
returns `Success` preserves `count ≤ capacity` and `capacity ≥ 1` —
provided that for `deleteMany` the arguments additionally satisfy
`index + count ≤ size` (or are rejected by its checks).  The original
claim, which required only `count != 0` and `index < size` for
`deleteMany`, is refuted by the counterexample: `size -= count` wraps. -/
theorem claim_C1_amended {A : Type} (v : ZyanVector A) (hinv : VecInv v)
    (hgf : 1 ≤ v.growth_factor) :
    (∀ e : A, v.size + 1 < UMOD →
      (ZyanVectorPush v e).1 = ZyanStatus.Success →
      VecInv (ZyanVectorPush v e).2) ∧
    (∀ (i : Nat) (e : A), v.size + 1 < UMOD →
      (ZyanVectorInsert v i e).1 = ZyanStatus.Success →
      VecInv (ZyanVectorInsert v i e).2) ∧
    (∀ (i : Nat) (es : Nat → A) (c : Nat), v.size + c < UMOD →
      (ZyanVectorInsertElements v i es c).1 = ZyanStatus.Success →
      VecInv (ZyanVectorInsertElements v i es c).2) ∧
    (∀ i : Nat, v.size < UMOD →
      (ZyanVectorDelete v i).1 = ZyanStatus.Success →
      VecInv (ZyanVectorDelete v i).2) ∧
    (∀ i c : Nat, v.size < UMOD → (i + c ≤ v.size ∨ c = 0 ∨ v.size ≤ i) →
      (ZyanVectorDeleteElements v i c).1 = ZyanStatus.Success →
      VecInv (ZyanVectorDeleteElements v i c).2) ∧
    ((ZyanVectorPop v).1 = ZyanStatus.Success → VecInv (ZyanVectorPop v).2) ∧
    ((ZyanVectorClear v).1 = ZyanStatus.Success →
      VecInv (ZyanVectorClear v).2) ∧
    (∀ s : Nat, (ZyanVectorResize v s).1 = ZyanStatus.Success →
      VecInv (ZyanVectorResize v s).2) ∧
    (∀ c : Nat, (ZyanVectorReserve v c).1 = ZyanStatus.Success →
      VecInv (ZyanVectorReserve v c).2) ∧
    ((ZyanVectorShrinkToFit v).1 = ZyanStatus.Success →
      VecInv (ZyanVectorShrinkToFit v).2) ∧
    (∀ (i : Nat) (e : A), (ZyanVectorAssign v i e).1 = ZyanStatus.Success →
      VecInv (ZyanVectorAssign v i e).2) := by
  refine ⟨?_, ?_, ?_, ?_, ?_, ?_, ?_, ?_, ?_, ?_, ?_⟩
  · intro e hW hs
    exact push_inv v e hinv hgf hW hs
  · intro i e hW hs
    exact insertElements_inv v i (fun _ => e) 1 hinv hgf hW hs
  · intro i es c hW hs
    exact insertElements_inv v i es c hinv hgf hW hs
  · intro i hW _hs
    exact deleteElements_inv v i 1 hinv hgf hW (by omega)
  · intro i c hW hok _hs
    exact deleteElements_inv v i c hinv hgf hW hok
  · intro _hs
    exact pop_inv v hinv hgf
  · intro hs
    exact clear_inv v hinv hgf hs
  · intro s hs
    exact resize_inv v s hinv hgf hs
  · intro c hs
    exact reserve_inv v c hinv hs
  · intro _hs
    exact shrinkToFit_inv v hinv
  · intro i e _hs
    exact assign_inv v i e hinv

theorem claim_C1_witness :
    VecInv vFive ∧
    VecInv (ZyanVectorDeleteElements vFive 1 2).2 := by
  have hinv : VecInv vFive := by decide
  exact ⟨hinv, (claim_C1_amended vFive hinv (by norm_num [vFive])).2.2.2.2.1
    1 2 (by norm_num [vFive, UMOD]) (by norm_num [vFive]) c3_status⟩

theorem realloc_status_ne_oor {A : Type} (v : ZyanVector A) (c : Nat) :
    (ZyanVectorReallocate v c).1 ≠ ZyanStatus.OutOfRange := by
  cases ha : v.allocator with
  | none =>
      rw [realloc_none v c ha]
      by_cases h : v.capacity < c <;> simp [h]
  | some a =>
      rcases Nat.eq_zero_or_pos c with h0 | hpos
      · subst h0
        rw [realloc_some_zero v a ha]
        by_cases hcap : 1 < v.capacity
        · rw [if_pos hcap]
          by_cases hro : a.reallocateOk 1 <;> simp [hro]
        · rw [if_neg hcap]
          simp
      · rw [realloc_some_pos v a c ha hpos]
        by_cases hro : a.reallocateOk c <;> simp [hro]

/-- C9: `ZyanVectorDeleteElements` never validates `index + count ≤ size`.
Whenever `count != 0`, `index < size` and `count > size - index`, the call
does not return `OutOfRange`; it proceeds and stores
`(size - count) mod 2^64` (wrapping unsigned subtraction) as the new
count, and when the subtraction actually wraps (`count > size`, with
`count + capacity < 2^64 + size`) the stored count exceeds the
capacity. -/
theorem claim_C9_deleteMany_unchecked_wrap {A : Type} (v : ZyanVector A)
    (i c : Nat) (_hW : v.size < UMOD) (hc : c < UMOD) (hc0 : c ≠ 0)
    (hi : i < v.size) (_hover : v.size - i < c) :
    (ZyanVectorDeleteElements v i c).1 ≠ ZyanStatus.OutOfRange ∧
    (ZyanVectorDeleteElements v i c).2.size =
      (v.size + (UMOD - c)) % UMOD ∧
    (v.size < c → c + v.capacity < UMOD + v.size →
      v.capacity < (ZyanVectorDeleteElements v i c).2.size) := by
  unfold ZyanVectorDeleteElements
  rw [if_neg hc0, if_neg (not_le.2 hi)]
  dsimp only
  set v1 : ZyanVector A := if i < v.size - 1 then ZyanVectorShiftLeft v i c
    else v with hv1def
  have hv1sz : v1.size = v.size := by
    rw [hv1def]
    split
    · exact shiftLeft_size v i c
    · rfl
  have husubeq : usub v1.size c = (v.size + (UMOD - c)) % UMOD := by
    rw [hv1sz]
    unfold usub
    rw [Nat.mod_eq_of_lt hc]
  have hwrap : v.size < c → c + v.capacity < UMOD + v.size →
      v.capacity < (v.size + (UMOD - c)) % UMOD := by
    intro hcs hbig
    rw [Nat.mod_eq_of_lt (by omega)]
    omega
  split
  next h =>
    refine ⟨realloc_status_ne_oor _ _, ?_, ?_⟩
    · rw [(realloc_fields _ _).1]
      show usub v1.size c = _
      exact husubeq
    · intro hcs hbig
      rw [(realloc_fields _ _).1]
      show v.capacity < usub v1.size c
      rw [husubeq]
      exact hwrap hcs hbig
  next h =>
    refine ⟨by simp, ?_, ?_⟩
    · show usub v1.size c = _
      exact husubeq
    · intro hcs hbig
      show v.capacity < usub v1.size c
      rw [husubeq]
      exact hwrap hcs hbig

theorem claim_C9_witness :
    (ZyanVectorDeleteElements vWrap 2 5).1 ≠ ZyanStatus.OutOfRange ∧
    (ZyanVectorDeleteElements vWrap 2 5).2.size =
      (vWrap.size + (UMOD - 5)) % UMOD ∧
    vWrap.capacity < (ZyanVectorDeleteElements vWrap 2 5).2.size := by
  have h := claim_C9_deleteMany_unchecked_wrap vWrap 2 5
    (by norm_num [vWrap, UMOD]) (by norm_num [UMOD]) (by norm_num)
    (by norm_num [vWrap]) (by norm_num [vWrap])
  exact ⟨h.1, h.2.1, h.2.2 (by norm_num [vWrap]) (by norm_num [vWrap, UMOD])⟩

/-- C8: the internal left shift of `ZyanVectorDeleteElements` moves a
block of `size - index` elements starting at `index + count` down to
`index` — `count` more elements than the live tail
`size - index - count` holds.  Consequently, on a full vector
(`size = capacity`) a deletion at any `index < size - 1` reads past the
allocated storage: the slot `size - 1` (inside the allocation) receives
the value stored at flat-memory address `size - 1 + count ≥ capacity`,
i.e. the out-of-bounds branch of a bounds-checking read is reachable. -/
theorem claim_C8_shiftLeft_reads_oob {A : Type} (v : ZyanVector A)
    (i c : Nat) (hc : c ≠ 0) (hi : i < v.size - 1)
    (hfull : v.size = v.capacity) :
    (∀ a, i ≤ a → a < v.size →
      (ZyanVectorShiftLeft v i c).data a = v.data (a + c)) ∧
    (ZyanVectorDeleteElements v i c).2.data (v.size - 1) =
      v.data (v.size - 1 + c) ∧
    v.capacity ≤ v.size - 1 + c := by
  have hsz2 : 2 ≤ v.size := by omega
  refine ⟨?_, ?_, by omega⟩
  · intro a ha1 ha2
    rw [shiftLeft_data, if_pos (by omega)]
  · unfold ZyanVectorDeleteElements
    rw [if_neg hc, if_neg (by omega : ¬ v.size ≤ i)]
    dsimp only
    rw [if_pos hi]
    split
    next h =>
      rw [(realloc_fields _ _).2.1]
      show (ZyanVectorShiftLeft v i c).data (v.size - 1) = _
      rw [shiftLeft_data, if_pos (by omega)]
    next h =>
      show (ZyanVectorShiftLeft v i c).data (v.size - 1) = _
      rw [shiftLeft_data, if_pos (by omega)]

theorem claim_C8_witness :
    (ZyanVectorDeleteElements vFull 1 1).2.data (vFull.size - 1) =
      vFull.data (vFull.size - 1 + 1) ∧
    vFull.capacity ≤ vFull.size - 1 + 1 := by
  have h := claim_C8_shiftLeft_reads_oob vFull 1 1 (by norm_num)
    (by norm_num [vFull]) (by norm_num [vFull])
  exact ⟨h.2.1, h.2.2⟩

/-- C10: every public operation taking a vector handle checks it and
returns `InvalidArgument` on the null handle — except
`ZyanVectorShrinkToFit`, which performs no such check and immediately
dereferences the handle (modelled as the undefined outcome `none`; the
only guard in the reallocation helper is a debug-only assertion). -/
theorem claim_C10_null_handle_checks :
    (∀ (a : ZyanAllocator) (gf st : ℚ) (esz cap : Nat),
      ZyanVectorInitExCall none a gf st esz cap =
        some ZyanStatus.InvalidArgument) ∧
    (∀ esz cap : Nat, ZyanVectorInitBufferCall none esz cap =
      some ZyanStatus.InvalidArgument) ∧
    ZyanVectorDestroyCall none = some ZyanStatus.InvalidArgument ∧
    (∀ i : Nat, ZyanVectorGetCall none i =
      some ZyanStatus.InvalidArgument) ∧
    (∀ i : Nat, ZyanVectorGetConstCall none i =
      some ZyanStatus.InvalidArgument) ∧
    (∀ i e : Nat, ZyanVectorAssignCall none i e =
      some ZyanStatus.InvalidArgument) ∧
    (∀ e : Nat, ZyanVectorPushCall none e =
      some ZyanStatus.InvalidArgument) ∧
    (∀ i e : Nat, ZyanVectorInsertCall none i e =
      some ZyanStatus.InvalidArgument) ∧
    (∀ (i : Nat) (es : Nat → Nat) (c : Nat),
      ZyanVectorInsertElementsCall none i es c =
        some ZyanStatus.InvalidArgument) ∧
    (∀ i : Nat, ZyanVectorDeleteCall none i =
      some ZyanStatus.InvalidArgument) ∧
    (∀ i c : Nat, ZyanVectorDeleteElementsCall none i c =
      some ZyanStatus.InvalidArgument) ∧
    ZyanVectorPopCall none = some ZyanStatus.InvalidArgument ∧
    ZyanVectorClearCall none = some ZyanStatus.InvalidArgument ∧
    (∀ s : Nat, ZyanVectorResizeCall none s =
      some ZyanStatus.InvalidArgument) ∧
    (∀ c : Nat, ZyanVectorReserveCall none c =
      some ZyanStatus.InvalidArgument) ∧
    ZyanVectorSizeCall none = some ZyanStatus.InvalidArgument ∧
    ZyanVectorCapacityCall none = some ZyanStatus.InvalidArgument ∧
    ZyanVectorShrinkToFitCall none = none := by
  refine ⟨fun _ _ _ _ _ => rfl, fun _ _ => rfl, rfl, fun _ => rfl,
    fun _ => rfl, fun _ _ => rfl, fun _ => rfl, fun _ _ => rfl,
    fun _ _ _ => rfl, fun _ => rfl, fun _ _ => rfl, rfl, rfl,
    fun _ => rfl, fun _ => rfl, rfl, rfl, rfl⟩

/-- C4: for any well-placed index (`index ≤ count`), inserting an element
at `index` and then deleting at `index` — both calls returning
`Success` — restores the original count and the original element at every
live position. -/
theorem claim_C4_insert_delete_roundtrip {A : Type} (v : ZyanVector A)
    (i : Nat) (x : A) (hW : v.size + 1 < UMOD) (hi : i ≤ v.size)
    (hs1 : (ZyanVectorInsert v i x).1 = ZyanStatus.Success)
    (_hs2 : (ZyanVectorDelete (ZyanVectorInsert v i x).2 i).1 =
      ZyanStatus.Success) :
    (ZyanVectorDelete (ZyanVectorInsert v i x).2 i).2.size = v.size ∧
    (∀ a, a < v.size →
      (ZyanVectorDelete (ZyanVectorInsert v i x).2 i).2.data a =
        v.data a) := by
  unfold ZyanVectorDelete ZyanVectorInsert at *
  obtain ⟨-, hwsz, -, hleft, -, hright⟩ :=
    insertElements_success_spec v i (fun _ => x) 1 hW hi hs1
  obtain ⟨hdsz, hdleft, hdmid, -, -, -⟩ :=
    deleteElements_valid_spec (ZyanVectorInsertElements v i
      (fun _ => x) 1).2 i 1 (by rw [hwsz]; exact hW) (by norm_num)
      (by rw [hwsz]; omega)
  constructor
  · rw [hdsz, hwsz]
    omega
  · intro a ha
    by_cases hai : a < i
    · rw [hdleft a hai, hleft a hai]
    · have h1 : i ≤ a := by omega
      have h2 : a < (ZyanVectorInsertElements v i (fun _ => x) 1).2.size
          - 1 := by
        rw [hwsz]
        omega
      rw [hdmid a h1 h2, hright (a + 1) (by omega) (by omega),
        Nat.add_sub_cancel]

theorem c4_grow_eq : growIfNeeded vPair (uadd vPair.size 1) =
    (ZyanStatus.Success, { vPair with capacity := 6 }) := by
  have h3 : uadd vPair.size 1 = 3 := by norm_num [uadd, UMOD, vPair]
  unfold growIfNeeded
  rw [h3, if_pos (by norm_num [vPair]),
    show vPair.growth_factor = 2 from rfl, zyanCapTarget_3_2,
    realloc_some_pos vPair allocAlways 6 rfl (by norm_num)]
  simp [allocAlways]

theorem c4_insert_status : (ZyanVectorInsert vPair 1 99).1 =
    ZyanStatus.Success := by
  unfold ZyanVectorInsert ZyanVectorInsertElements
  rw [if_neg (by norm_num), if_neg (by norm_num [vPair]), c4_grow_eq,
    zyanCheck_pos _ _ rfl]

theorem c4_mid_fields : (ZyanVectorInsert vPair 1 99).2.size = 3 ∧
    (ZyanVectorInsert vPair 1 99).2.capacity = 6 ∧
    (ZyanVectorInsert vPair 1 99).2.shrink_threshold = 1 / 4 := by
  unfold ZyanVectorInsert ZyanVectorInsertElements
  rw [if_neg (by norm_num), if_neg (by norm_num [vPair]), c4_grow_eq,
    zyanCheck_pos _ _ rfl]
  dsimp only
  rw [if_pos (by norm_num [vPair])]
  refine ⟨?_, rfl, rfl⟩
  rw [shiftRight_size]
  norm_num [uadd, UMOD, vPair]

theorem c4_delete_status :
    (ZyanVectorDelete (ZyanVectorInsert vPair 1 99).2 1).1 =
      ZyanStatus.Success := by
  unfold ZyanVectorDelete
  refine deleteElements_status_noshrink _ 1 1 (by norm_num) ?_ ?_
  · rw [c4_mid_fields.1]
    norm_num
  · rw [c4_mid_fields.1, c4_mid_fields.2.1, c4_mid_fields.2.2]
    norm_num [usub, UMOD]

theorem claim_C4_witness :
    (ZyanVectorInsert vPair 1 99).1 = ZyanStatus.Success ∧
    (ZyanVectorDelete (ZyanVectorInsert vPair 1 99).2 1).1 =
      ZyanStatus.Success ∧
    (ZyanVectorDelete (ZyanVectorInsert vPair 1 99).2 1).2.size =
      vPair.size ∧
    (∀ a, a < vPair.size →
      (ZyanVectorDelete (ZyanVectorInsert vPair 1 99).2 1).2.data a =
        vPair.data a) := by
  have h := claim_C4_insert_delete_roundtrip vPair 1 99
    (by norm_num [vPair, UMOD]) (by norm_num [vPair]) c4_insert_status
    c4_delete_status
  exact ⟨c4_insert_status, c4_delete_status, h.1, h.2⟩

theorem c2_failpush_run : ZyanVectorPush vFailPush 7 =
    (ZyanStatus.AllocatorFailed, { vFailPush with capacity := 4 }) := by
  have hgrow : growIfNeeded vFailPush (uadd vFailPush.size 1) =
      (ZyanStatus.AllocatorFailed, { vFailPush with capacity := 4 }) := by
    have h2 : uadd vFailPush.size 1 = 2 := by
      norm_num [uadd, UMOD, vFailPush]
    unfold growIfNeeded
    rw [h2, if_pos (by norm_num [vFailPush]),
      show vFailPush.growth_factor = 2 from rfl, zyanCapTarget_2_2,
      realloc_some_pos vFailPush allocNoRealloc 4 rfl (by norm_num)]
    simp [allocNoRealloc]
  unfold ZyanVectorPush
  rw [hgrow, zyanCheck_neg _ _ (by simp)]

/-- C2 counterexample: a push that triggers growth on an owning vector
whose allocator fails the reallocation returns a failure status, yet the
externally observable capacity field has changed from 1 to 4 — the
capacity is assigned before the allocator is invoked, so a failed
mutating call does not leave the observable state unchanged. -/
theorem claim_C2_counterexample :
    ¬ (ZyanVectorPush vFailPush 7).1 = ZyanStatus.Success ∧
    ¬ (ZyanVectorPush vFailPush 7).2.capacity = vFailPush.capacity := by
  constructor
  · rw [c2_failpush_run]
    simp
  · rw [c2_failpush_run]
    show ¬ (4 : Nat) = vFailPush.capacity
    norm_num [vFailPush]

/-- C2 amended: a failed mutating call leaves the count and the element
contents unchanged and, unless the failure is a propagated allocator
failure, the capacity as well; when an owning-mode reallocation fails the
capacity field has already been set to the requested target.
Additionally, when the allocator fails during the shrink step of `pop` or
`deleteMany`, the deletion itself (count decrement, and for `deleteMany`
the tail shift) has already been applied. -/
theorem claim_C2_amended {A : Type} (v : ZyanVector A) (hmode : ModeOk v) :
    (∀ e : A, ¬ (ZyanVectorPush v e).1 = ZyanStatus.Success →
      (ZyanVectorPush v e).2.size = v.size ∧
      (ZyanVectorPush v e).2.data = v.data ∧
      ((ZyanVectorPush v e).2.capacity = v.capacity ∨
        (ZyanVectorPush v e).1 = ZyanStatus.AllocatorFailed)) ∧
    (∀ (i : Nat) (es : Nat → A) (c : Nat),
      ¬ (ZyanVectorInsertElements v i es c).1 = ZyanStatus.Success →
      (ZyanVectorInsertElements v i es c).2.size = v.size ∧
      (ZyanVectorInsertElements v i es c).2.data = v.data ∧
      ((ZyanVectorInsertElements v i es c).2.capacity = v.capacity ∨
        (ZyanVectorInsertElements v i es c).1 =
          ZyanStatus.AllocatorFailed)) ∧
    (∀ c : Nat, ¬ (ZyanVectorReserve v c).1 = ZyanStatus.Success →
      (ZyanVectorReserve v c).2.size = v.size ∧
      (ZyanVectorReserve v c).2.data = v.data ∧
      ((ZyanVectorReserve v c).2.capacity = v.capacity ∨
        (ZyanVectorReserve v c).1 = ZyanStatus.AllocatorFailed)) ∧
    (∀ s : Nat, ¬ (ZyanVectorResize v s).1 = ZyanStatus.Success →
      (ZyanVectorResize v s).2.size = v.size ∧
      (ZyanVectorResize v s).2.data = v.data ∧
      ((ZyanVectorResize v s).2.capacity = v.capacity ∨
        (ZyanVectorResize v s).1 = ZyanStatus.AllocatorFailed)) ∧
    (¬ (ZyanVectorShrinkToFit v).1 = ZyanStatus.Success →
      (ZyanVectorShrinkToFit v).2.size = v.size ∧
      (ZyanVectorShrinkToFit v).2.data = v.data ∧
      ((ZyanVectorShrinkToFit v).2.capacity = v.capacity ∨
        (ZyanVectorShrinkToFit v).1 = ZyanStatus.AllocatorFailed)) ∧
    (¬ (ZyanVectorPop v).1 = ZyanStatus.Success →
      ((ZyanVectorPop v).1 = ZyanStatus.OutOfRange ∧
        (ZyanVectorPop v).2 = v) ∨
      ((ZyanVectorPop v).1 = ZyanStatus.AllocatorFailed ∧
        (ZyanVectorPop v).2.size = v.size - 1 ∧
        (ZyanVectorPop v).2.data = v.data)) ∧
    (∀ i c : Nat,
      ¬ (ZyanVectorDeleteElements v i c).1 = ZyanStatus.Success →
      (((ZyanVectorDeleteElements v i c).1 = ZyanStatus.InvalidArgument ∨
        (ZyanVectorDeleteElements v i c).1 = ZyanStatus.OutOfRange) ∧
        (ZyanVectorDeleteElements v i c).2 = v) ∨
      ((ZyanVectorDeleteElements v i c).1 = ZyanStatus.AllocatorFailed ∧
        (ZyanVectorDeleteElements v i c).2.size = usub v.size c)) := by
  refine ⟨?_, ?_, ?_, ?_, ?_, ?_, ?_⟩
  · intro e hf
    exact push_failed v e hf
  · intro i es c hf
    exact insertElements_failed v i es c hf
  · intro c hf
    exact reserve_failed v c hf
  · intro s hf
    exact resize_failed v s hf
  · intro hf
    exact shrinkToFit_failed v hf
  · intro hf
    exact pop_failed v hmode hf
  · intro i c hf
    exact deleteElements_failed v i c hmode hf

theorem claim_C2_witness :
    (ZyanVectorPush vFailPush 7).2.size = vFailPush.size ∧
    (ZyanVectorPush vFailPush 7).2.data = vFailPush.data ∧
    ((ZyanVectorPush vFailPush 7).2.capacity = vFailPush.capacity ∨
      (ZyanVectorPush vFailPush 7).1 = ZyanStatus.AllocatorFailed) := by
  exact (claim_C2_amended vFailPush
    (by intro h; simp [vFailPush] at h)).1 7
    (by rw [c2_failpush_run]; simp)

/-- C6: for a borrowing-mode vector (fields as `ZyanVectorInitBuffer`
creates them), no operation ever changes the capacity field or leaves
borrowing mode, so across any sequence of operations the capacity is
fixed; any operation whose required capacity exceeds the fixed buffer
capacity (push or insertMany past the buffer, reserve or resize with a
larger target) returns `InsufficientBufferSize` and leaves count and
capacity unchanged; capacity requests within the fixed capacity succeed
without touching the buffer. -/
theorem claim_C6_borrowing_fixed_capacity {A : Type} (v : ZyanVector A)
    (hb : BorrowOk v) (hsz : v.size ≤ v.capacity) :
    (∀ e : A, BorrowOk (ZyanVectorPush v e).2 ∧
      (ZyanVectorPush v e).2.capacity = v.capacity) ∧
    (∀ (i : Nat) (es : Nat → A) (c : Nat),
      BorrowOk (ZyanVectorInsertElements v i es c).2 ∧
      (ZyanVectorInsertElements v i es c).2.capacity = v.capacity) ∧
    (∀ i c : Nat, BorrowOk (ZyanVectorDeleteElements v i c).2 ∧
      (ZyanVectorDeleteElements v i c).2.capacity = v.capacity) ∧
    (BorrowOk (ZyanVectorPop v).2 ∧
      (ZyanVectorPop v).2.capacity = v.capacity) ∧
    (BorrowOk (ZyanVectorClear v).2 ∧
      (ZyanVectorClear v).2.capacity = v.capacity) ∧
    (∀ s : Nat, BorrowOk (ZyanVectorResize v s).2 ∧
      (ZyanVectorResize v s).2.capacity = v.capacity) ∧
    (∀ c : Nat, BorrowOk (ZyanVectorReserve v c).2 ∧
      (ZyanVectorReserve v c).2.capacity = v.capacity) ∧
    (∀ (i : Nat) (e : A), BorrowOk (ZyanVectorAssign v i e).2 ∧
      (ZyanVectorAssign v i e).2.capacity = v.capacity) ∧
    ZyanVectorShrinkToFit v = (ZyanStatus.Success, v) ∧
    (∀ e : A, v.size + 1 < UMOD → v.capacity < v.size + 1 →
      ZyanVectorPush v e = (ZyanStatus.InsufficientBufferSize, v)) ∧
    (∀ (i : Nat) (es : Nat → A) (c : Nat), c ≠ 0 → i ≤ v.size →
      v.size + c < UMOD → v.capacity < v.size + c →
      ZyanVectorInsertElements v i es c =
        (ZyanStatus.InsufficientBufferSize, v)) ∧
    (∀ c : Nat, v.capacity < c →
      ZyanVectorReserve v c = (ZyanStatus.InsufficientBufferSize, v)) ∧
    (∀ s : Nat, v.capacity < s →
      ZyanVectorResize v s = (ZyanStatus.InsufficientBufferSize, v)) ∧
    (∀ c : Nat, c ≤ v.capacity →
      ZyanVectorReserve v c = (ZyanStatus.Success, v)) ∧
    (∀ s : Nat, s ≤ v.capacity →
      ZyanVectorResize v s = (ZyanStatus.Success, { v with size := s })) := by
  refine ⟨?_, ?_, ?_, ?_, ?_, ?_, ?_, ?_, ?_, ?_, ?_, ?_, ?_, ?_, ?_⟩
  · intro e
    exact ⟨(borrow_push v e hb).1, (borrow_push v e hb).2.1⟩
  · intro i es c
    exact ⟨(borrow_insertElements v i es c hb).1,
      (borrow_insertElements v i es c hb).2.1⟩
  · intro i c
    exact borrow_deleteElements v i c hb
  · exact borrow_pop v hb
  · exact borrow_clear v hb
  · intro s
    exact ⟨(borrow_resize v s hb).1, (borrow_resize v s hb).2.1⟩
  · intro c
    exact ⟨(borrow_reserve v c hb).1, (borrow_reserve v c hb).2.1⟩
  · intro i e
    exact borrow_assign v i e hb
  · exact borrow_shrinkToFit v hb hsz
  · intro e hW hlt
    exact (borrow_push v e hb).2.2 hW hlt
  · intro i es c hc hi hW hlt
    exact (borrow_insertElements v i es c hb).2.2 hc hi hW hlt
  · intro c hlt
    exact (borrow_reserve v c hb).2.2.1 hlt
  · intro s hlt
    exact (borrow_resize v s hb).2.2.1 hlt
  · intro c hle
    exact (borrow_reserve v c hb).2.2.2 hle
  · intro s hle
    exact (borrow_resize v s hb).2.2.2 hle

theorem claim_C6_witness :
    BorrowOk vBor ∧ vBor.size ≤ vBor.capacity ∧
    ZyanVectorInsertElements vBor 0 (listData [1, 2]) 2 =
      (ZyanStatus.InsufficientBufferSize, vBor) ∧
    (ZyanVectorPush vBor 7).2.capacity = vBor.capacity ∧
    ZyanVectorReserve vBor 4 = (ZyanStatus.Success, vBor) := by
  have hb : BorrowOk vBor := ⟨rfl, rfl, rfl⟩
  have hsz : vBor.size ≤ vBor.capacity := by norm_num [vBor]
  have h := claim_C6_borrowing_fixed_capacity vBor hb hsz
  refine ⟨hb, hsz, ?_, (h.1 7).2, ?_⟩
  · exact h.2.2.2.2.2.2.2.2.2.2.1 0 (listData [1, 2]) 2 (by norm_num)
      (by norm_num [vBor]) (by norm_num [vBor, UMOD]) (by norm_num [vBor])
  · exact h.2.2.2.2.2.2.2.2.2.2.2.2.2.1 4 (by norm_num [vBor])
